import Mathlib

/-!
Verification development for the Radiant lending-protocol core
(`programs/radiant/src`).  The Rust state structs and instruction handlers
are shallowly embedded as Lean definitions: `u64`/`u128` machine integers
become `Nat` with explicit `% 2^64` (written `u64cast`) at every Rust
`as u64` cast, checked arithmetic becomes `Except` failures, saturating
subtraction becomes `Nat` subtraction, and unguarded division by zero
(which would abort the Rust transaction) becomes an `Aborted` error.
Unchecked Rust multiplications whose operands are bounded in practice are
modelled as plain `Nat` multiplication.  Timestamps (`i64`) are `Int`.
Pubkeys are modelled as `Nat` identifiers.
-/

namespace Radiant

/-! ## Constants (`constants.rs`) -/

def INDEX_ONE : Nat := 1000000000000000000

def USD_SCALE : Nat := 1000000

def SECONDS_PER_YEAR : Nat := 31536000

def MAX_RESERVE_STALENESS_SLOTS : Nat := 1500

def MIN_DEPOSIT_AMOUNT : Nat := 1000

def MIN_BORROW_AMOUNT : Nat := 1000

def MIN_HEALTH_FACTOR_AFTER_BORROW : Nat := 10000

def HEALTH_FACTOR_ONE : Nat := 10000

def MAX_OBLIGATION_DEPOSITS : Nat := 8

def MAX_OBLIGATION_BORROWS : Nat := 8

def U64_MOD : Nat := 2 ^ 64

def U128_MOD : Nat := 2 ^ 128

/-- Rust `as u64` truncating cast on a `u128` intermediate value. -/
def u64cast (x : Nat) : Nat := x % U64_MOD

/-! ## Errors

One inductive collecting the error codes of all handlers.  `Aborted`
stands for a Rust panic (division by zero on an unguarded code path),
which also aborts the transaction. -/

inductive PErr where
  | EmergencyModeActive
  | BorrowsDisabled
  | DepositsDisabled
  | AmountZero
  | AmountTooSmall
  | ReserveStale
  | NoCollateral
  | BorrowLimitExceeded
  | DepositLimitExceeded
  | InsufficientLiquidity
  | InsufficientBorrowingCapacity
  | InsufficientVaultBalance
  | InsufficientHealthFactor
  | MaxBorrowsReached
  | MaxDepositsReached
  | MathOverflow
  | NoDepositFound
  | InsufficientDeposit
  | PositionUnhealthy
  | InsufficientBorrowCapacity
  | HealthFactorTooLow
  | NoBorrowFound
  | NothingToRepay
  | ObligationHealthy
  | NoCollateralFound
  | RepayAmountTooSmall
  | InsufficientCollateral
  | InvalidIndexCalculation
  | Aborted
  deriving Repr, DecidableEq

def exIsOk {ε α : Type} : Except ε α → Bool
  | .ok _ => true
  | .error _ => false

def exGetD {ε α : Type} : Except ε α → α → α
  | .ok a, _ => a
  | .error _, d => d

/-! ## Data model (`state/reserve.rs`, `state/obligation.rs`,
`state/lending_market.rs`) -/

structure InterestRateConfig where
  optimal_utilization_bps : Nat
  base_rate_bps : Nat
  slope1_bps : Nat
  slope2_bps : Nat
  reserve_factor_bps : Nat
  deriving Repr, DecidableEq

structure ReserveConfig where
  ltv_bps : Nat
  liquidation_threshold_bps : Nat
  deposit_limit : Nat
  borrow_limit : Nat
  deposits_enabled : Bool
  borrows_enabled : Bool
  interest_rate_config : InterestRateConfig
  deriving Repr, DecidableEq

structure ReserveLiquidity where
  total_deposits : Nat
  total_borrows : Nat
  accumulated_protocol_fees : Nat
  cumulative_borrow_index : Nat
  cumulative_supply_index : Nat
  current_borrow_rate_bps : Nat
  current_supply_rate_bps : Nat
  deriving Repr, DecidableEq

structure Reserve where
  last_update_slot : Nat
  last_update_timestamp : Int
  config : ReserveConfig
  liquidity : ReserveLiquidity
  deriving Repr, DecidableEq

structure ObligationCollateral where
  reserve : Nat
  deposited_amount : Nat
  supply_index_snapshot : Nat
  market_value_usd : Nat
  deriving Repr, DecidableEq

structure ObligationLiquidity where
  reserve : Nat
  borrowed_amount : Nat
  borrow_index_snapshot : Nat
  market_value_usd : Nat
  deriving Repr, DecidableEq

structure Obligation where
  last_update_slot : Nat
  deposits : List ObligationCollateral
  borrows : List ObligationLiquidity
  deposited_value_usd : Nat
  borrowed_value_usd : Nat
  allowed_borrow_value_usd : Nat
  unhealthy_borrow_value_usd : Nat
  deriving Repr, DecidableEq

def ocDefault : ObligationCollateral := ⟨0, 0, 0, 0⟩

def olDefault : ObligationLiquidity := ⟨0, 0, 0, 0⟩

/-- `Iterator::position` over a list. -/
def find_position {α : Type} (p : α → Bool) : List α → Option Nat
  | [] => none
  | a :: rest => if p a then some 0 else (find_position p rest).map (· + 1)

/-! ### Reserve methods (`state/reserve.rs`) -/

/-- `Reserve::calculate_utilization_bps`. -/
def Reserve.calculate_utilization_bps (r : Reserve) : Nat :=
  if r.liquidity.total_deposits = 0 then 0
  else u64cast (r.liquidity.total_borrows * 10000 / r.liquidity.total_deposits)

/-- `Reserve::available_liquidity` (saturating subtraction). -/
def Reserve.available_liquidity (r : Reserve) : Nat :=
  r.liquidity.total_deposits - r.liquidity.total_borrows

/-- `Reserve::is_stale`. -/
def Reserve.is_stale (r : Reserve) (current_slot max_age_slots : Nat) : Bool :=
  decide (current_slot > r.last_update_slot + max_age_slots)

/-- `InterestRateConfig::calculate_borrow_rate` (kinked model; plain `Nat`
arithmetic, matching the Rust `u64` arithmetic wherever it does not
overflow). -/
def InterestRateConfig.calculate_borrow_rate (c : InterestRateConfig)
    (utilization_bps : Nat) : Nat :=
  if utilization_bps ≤ c.optimal_utilization_bps then
    let slope_rate :=
      if c.optimal_utilization_bps = 0 then 0
      else utilization_bps * c.slope1_bps / c.optimal_utilization_bps
    c.base_rate_bps + slope_rate
  else
    let excess_utilization := utilization_bps - c.optimal_utilization_bps
    let remaining_utilization := 10000 - c.optimal_utilization_bps
    let steep_rate :=
      if remaining_utilization = 0 then c.slope2_bps
      else excess_utilization * c.slope2_bps / remaining_utilization
    c.base_rate_bps + c.slope1_bps + steep_rate

/-- `InterestRateConfig::calculate_supply_rate`. -/
def InterestRateConfig.calculate_supply_rate (c : InterestRateConfig)
    (borrow_rate_bps utilization_bps : Nat) : Nat :=
  let gross_supply_rate := borrow_rate_bps * utilization_bps / 10000
  let protocol_cut := gross_supply_rate * c.reserve_factor_bps / 10000
  gross_supply_rate - protocol_cut

/-! ### Obligation methods (`state/obligation.rs`) -/

/-- `Obligation::calculate_health_factor`: `None` when there is no debt,
otherwise `(unhealthy_borrow_value_usd * 10000 / borrowed_value_usd)`
truncated by the Rust `as u64` cast. -/
def Obligation.calculate_health_factor (ob : Obligation) : Option Nat :=
  if ob.borrowed_value_usd = 0 then none
  else some (u64cast (ob.unhealthy_borrow_value_usd * 10000 / ob.borrowed_value_usd))

/-- `Obligation::is_healthy`. -/
def Obligation.is_healthy (ob : Obligation) : Bool :=
  match ob.calculate_health_factor with
  | none => true
  | some health => decide (health > 10000)

/-- `Obligation::is_liquidatable`. -/
def Obligation.is_liquidatable (ob : Obligation) : Bool :=
  !ob.is_healthy

/-- `Obligation::remaining_borrow_capacity_usd` (saturating subtraction). -/
def Obligation.remaining_borrow_capacity_usd (ob : Obligation) : Nat :=
  ob.allowed_borrow_value_usd - ob.borrowed_value_usd

/-- `Obligation::find_deposit`. -/
def Obligation.find_deposit (ob : Obligation) (reserve : Nat) : Option Nat :=
  find_position (fun d => d.reserve == reserve) ob.deposits

/-- `Obligation::find_borrow`. -/
def Obligation.find_borrow (ob : Obligation) (reserve : Nat) : Option Nat :=
  find_position (fun b => b.reserve == reserve) ob.borrows

/-- `Obligation::has_deposits`. -/
def Obligation.has_deposits (ob : Obligation) : Bool :=
  !ob.deposits.isEmpty

/-- `Obligation::has_borrows`. -/
def Obligation.has_borrows (ob : Obligation) : Bool :=
  !ob.borrows.isEmpty

/-! ## `refresh_reserve` (`instructions/permissionless/refresh_reserve.rs`)

The Rust `checked_mul`/`checked_add` calls are modelled as explicit
overflow guards (`if x < U128_MOD then … else .error .MathOverflow`) with
the unchecked value inlined; this is extensionally the checked
operation. -/

/-- Second half of the accrual branch of `refresh_reserve::handler`: given
the already-computed `new_borrow_index`, `interest_earned` and
`protocol_fee`, apply the `checked_add`s, compute the supply compound
factor and the new supply index and commit the updated liquidity. -/
def applySupplyIndex (r : Reserve)
    (new_borrow_index interest_earned protocol_fee : Nat) :
    Except PErr ReserveLiquidity :=
  if r.liquidity.total_borrows + interest_earned < U64_MOD then
    if r.liquidity.accumulated_protocol_fees + protocol_fee < U64_MOD then
      let supply_interest := interest_earned - protocol_fee
      let supply_compound_factor :=
        if r.liquidity.total_deposits > 0 then
          supply_interest * INDEX_ONE / r.liquidity.total_deposits
        else 0
      let new_supply_index :=
        r.liquidity.cumulative_supply_index +
          r.liquidity.cumulative_supply_index * supply_compound_factor /
            INDEX_ONE
      if new_supply_index < U128_MOD then
        if new_supply_index < r.liquidity.cumulative_supply_index then
          .error .InvalidIndexCalculation
        else
          .ok { r.liquidity with
                total_borrows := r.liquidity.total_borrows + interest_earned
                accumulated_protocol_fees :=
                  r.liquidity.accumulated_protocol_fees + protocol_fee
                cumulative_borrow_index := new_borrow_index
                cumulative_supply_index := new_supply_index }
      else .error .MathOverflow
    else .error .MathOverflow
  else .error .MathOverflow

/-- The interest-accrual core of `refresh_reserve::handler` (the branch
taken when `total_borrows > 0 && time_elapsed > 0`), returning the updated
`liquidity` with the new indexes, total borrows and protocol fees.  The
compound factor is the Rust `calculate_compound_factor` (two `checked_mul`
guards), the interest the Rust `calculate_interest_earned` (one
`checked_mul` guard and an `as u64` cast). -/
def accrueInterest (r : Reserve) (time_elapsed_capped : Nat) :
    Except PErr ReserveLiquidity :=
  let rate := r.liquidity.current_borrow_rate_bps
  if rate * time_elapsed_capped < U128_MOD then
    if rate * time_elapsed_capped * INDEX_ONE < U128_MOD then
      let factor := rate * time_elapsed_capped * INDEX_ONE /
        (10000 * SECONDS_PER_YEAR)
      if r.liquidity.cumulative_borrow_index * (INDEX_ONE + factor) <
          U128_MOD then
        let new_borrow_index :=
          r.liquidity.cumulative_borrow_index * (INDEX_ONE + factor) /
            INDEX_ONE
        if new_borrow_index < r.liquidity.cumulative_borrow_index then
          .error .InvalidIndexCalculation
        else
          if r.liquidity.total_borrows * factor < U128_MOD then
            let interest_earned :=
              u64cast (r.liquidity.total_borrows * factor / INDEX_ONE)
            applySupplyIndex r new_borrow_index interest_earned
              (u64cast (interest_earned *
                r.config.interest_rate_config.reserve_factor_bps / 10000))
          else .error .MathOverflow
      else .error .MathOverflow
    else .error .MathOverflow
  else .error .MathOverflow

/-- `refresh_reserve::handler`: accrue interest (when due), recompute the
rates from the new utilization and stamp the slot/timestamp.  Returns the
updated reserve; an error leaves the reserve untouched (transactional
abort). -/
def refreshReserve (r : Reserve) (current_slot : Nat) (current_timestamp : Int) :
    Except PErr Reserve :=
  let slots_elapsed := current_slot - r.last_update_slot
  let time_elapsed : Int := current_timestamp - r.last_update_timestamp
  if slots_elapsed = 0 then .ok r
  else
    let accrued :=
      if r.liquidity.total_borrows > 0 ∧ time_elapsed > 0 then
        accrueInterest r (min time_elapsed (SECONDS_PER_YEAR : Int)).toNat
      else .ok r.liquidity
    match accrued with
    | .error e => .error e
    | .ok liq =>
      let r1 := { r with liquidity := liq }
      let utilization_bps := r1.calculate_utilization_bps
      let borrow_rate :=
        r1.config.interest_rate_config.calculate_borrow_rate utilization_bps
      let supply_rate :=
        r1.config.interest_rate_config.calculate_supply_rate borrow_rate
          utilization_bps
      .ok { r1 with
            liquidity := { liq with
                           current_borrow_rate_bps := borrow_rate
                           current_supply_rate_bps := supply_rate }
            last_update_slot := current_slot
            last_update_timestamp := current_timestamp }

/-- One total refresh step: on an error the reserve is unchanged. -/
def refreshStep (r : Reserve) (current_slot : Nat) (current_timestamp : Int) :
    Reserve :=
  exGetD (refreshReserve r current_slot current_timestamp) r

/-- The value `calculate_compound_factor` produces when it does not
overflow. -/
def compoundFactorVal (r : Reserve) (tc : Nat) : Nat :=
  r.liquidity.current_borrow_rate_bps * tc * INDEX_ONE /
    (10000 * SECONDS_PER_YEAR)

/-- The value `calculate_interest_earned` produces for the reserve's total
borrows and compound factor (`interest_earned` in the handler). -/
def interestVal (r : Reserve) (tc : Nat) : Nat :=
  u64cast (r.liquidity.total_borrows * compoundFactorVal r tc / INDEX_ONE)

/-- The total borrow interest (`interest_earned`) a `refresh_reserve` call
accrues; `0` when the accrual branch is not taken. -/
def accruedInterest (r : Reserve) (current_slot : Nat)
    (current_timestamp : Int) : Nat :=
  if current_slot - r.last_update_slot = 0 then 0
  else if r.liquidity.total_borrows > 0 ∧
      current_timestamp - r.last_update_timestamp > 0 then
    interestVal r
      (min (current_timestamp - r.last_update_timestamp)
        (SECONDS_PER_YEAR : Int)).toNat
  else 0

/-! ## Index monotonicity -/

theorem applySupplyIndex_spec (r : Reserve) (nb ie pf : Nat)
    (liq : ReserveLiquidity) (h : applySupplyIndex r nb ie pf = .ok liq) :
    liq.total_borrows = r.liquidity.total_borrows + ie ∧
    liq.accumulated_protocol_fees =
      r.liquidity.accumulated_protocol_fees + pf ∧
    liq.cumulative_borrow_index = nb ∧
    r.liquidity.cumulative_supply_index ≤ liq.cumulative_supply_index := by
  simp only [applySupplyIndex] at h
  repeat' split at h
  all_goals try exact Except.noConfusion h
  all_goals
    (injection h with h; subst h;
     exact ⟨rfl, rfl, rfl, Nat.le_add_right _ _⟩)

theorem accrueInterest_mono (r : Reserve) (tc : Nat) (liq : ReserveLiquidity)
    (h : accrueInterest r tc = .ok liq) :
    r.liquidity.cumulative_borrow_index ≤ liq.cumulative_borrow_index ∧
    r.liquidity.cumulative_supply_index ≤ liq.cumulative_supply_index := by
  simp only [accrueInterest] at h
  repeat' split at h
  all_goals try exact Except.noConfusion h
  have hs := applySupplyIndex_spec _ _ _ _ _ h
  refine ⟨?_, hs.2.2.2⟩
  rw [hs.2.2.1]
  omega

theorem refreshReserve_mono (r : Reserve) (s : Nat) (t : Int) (r2 : Reserve)
    (h : refreshReserve r s t = .ok r2) :
    r.liquidity.cumulative_borrow_index ≤ r2.liquidity.cumulative_borrow_index ∧
    r.liquidity.cumulative_supply_index ≤ r2.liquidity.cumulative_supply_index := by
  simp only [refreshReserve] at h
  split at h
  · injection h with h
    subst h
    exact ⟨le_refl _, le_refl _⟩
  · split at h
    · exact Except.noConfusion h
    · rename_i liq heq
      injection h with h
      subst h
      simp only
      split at heq
      · exact accrueInterest_mono r _ liq heq
      · injection heq with heq
        subst heq
        exact ⟨le_refl _, le_refl _⟩

theorem refreshStep_mono (r : Reserve) (slot : Nat) (ts : Int) :
    r.liquidity.cumulative_borrow_index ≤
      (refreshStep r slot ts).liquidity.cumulative_borrow_index ∧
    r.liquidity.cumulative_supply_index ≤
      (refreshStep r slot ts).liquidity.cumulative_supply_index := by
  unfold refreshStep
  rcases heq : refreshReserve r slot ts with e | r2
  · simp only [exGetD]
    exact ⟨le_refl _, le_refl _⟩
  · simp only [exGetD]
    exact refreshReserve_mono r slot ts r2 heq

/-- C6: for every reserve and every `refresh_reserve` call (and hence for
every sequence of such calls, each step applied to the state the previous
one left), `cumulative_borrow_index` and `cumulative_supply_index` after
the refresh are at least their values before it; on a failed refresh the
reserve is unchanged. -/
theorem c6_index_monotonicity : ∀ (r : Reserve) (slot : Nat) (ts : Int),
    (r.liquidity.cumulative_borrow_index ≤
        (refreshStep r slot ts).liquidity.cumulative_borrow_index ∧
      r.liquidity.cumulative_supply_index ≤
        (refreshStep r slot ts).liquidity.cumulative_supply_index) ∧
    ∀ (l : List (Nat × Int)),
      r.liquidity.cumulative_borrow_index ≤
        (l.foldl (fun acc p => refreshStep acc p.1 p.2) r).liquidity.cumulative_borrow_index ∧
      r.liquidity.cumulative_supply_index ≤
        (l.foldl (fun acc p => refreshStep acc p.1 p.2) r).liquidity.cumulative_supply_index := by
  intro r slot ts
  refine ⟨refreshStep_mono r slot ts, ?_⟩
  intro l
  induction l generalizing r with
  | nil => exact ⟨le_refl _, le_refl _⟩
  | cons p l ih =>
    have h1 := refreshStep_mono r p.1 p.2
    have h2 := ih (refreshStep r p.1 p.2)
    exact ⟨le_trans h1.1 h2.1, le_trans h1.2 h2.2⟩

/-! ## Accrual arithmetic -/

theorem u64cast_lt (x : Nat) : u64cast x < U64_MOD :=
  Nat.mod_lt _ (by norm_num [U64_MOD])

theorem u64cast_eq_of_lt {x : Nat} (h : x < U64_MOD) : u64cast x = x :=
  Nat.mod_eq_of_lt h

/-- Exactly what a successful `accrueInterest` writes into `total_borrows`,
`accumulated_protocol_fees` and `cumulative_borrow_index`. -/
theorem accrueInterest_spec (r : Reserve) (tc : Nat) (liq : ReserveLiquidity)
    (h : accrueInterest r tc = .ok liq) :
    liq.total_borrows = r.liquidity.total_borrows + interestVal r tc ∧
    liq.accumulated_protocol_fees = r.liquidity.accumulated_protocol_fees +
      u64cast (interestVal r tc *
        r.config.interest_rate_config.reserve_factor_bps / 10000) ∧
    liq.cumulative_borrow_index = r.liquidity.cumulative_borrow_index *
      (INDEX_ONE + compoundFactorVal r tc) / INDEX_ONE := by
  simp only [accrueInterest] at h
  repeat' split at h
  all_goals try exact Except.noConfusion h
  have hs := applySupplyIndex_spec _ _ _ _ _ h
  simp only [interestVal, compoundFactorVal]
  exact ⟨hs.1, hs.2.1, hs.2.2.1⟩

theorem accruedInterest_lt (r : Reserve) (s : Nat) (t : Int) :
    accruedInterest r s t < U64_MOD := by
  unfold accruedInterest
  split
  · norm_num [U64_MOD]
  · split
    · exact u64cast_lt _
    · norm_num [U64_MOD]

theorem div_bps_le (x bps : Nat) (h : bps ≤ 10000) : x * bps / 10000 ≤ x := by
  have h1 : x * bps ≤ x * 10000 := Nat.mul_le_mul_left x h
  calc x * bps / 10000 ≤ x * 10000 / 10000 := Nat.div_le_div_right h1
    _ = x := Nat.mul_div_cancel x (by norm_num)

/-- What a successful `refresh_reserve` does to `total_borrows` and
`accumulated_protocol_fees`. -/
theorem refreshReserve_fee (r : Reserve) (s : Nat) (t : Int) (r2 : Reserve)
    (h : refreshReserve r s t = .ok r2) :
    r2.liquidity.total_borrows =
      r.liquidity.total_borrows + accruedInterest r s t ∧
    r2.liquidity.accumulated_protocol_fees =
      r.liquidity.accumulated_protocol_fees +
        u64cast (accruedInterest r s t *
          r.config.interest_rate_config.reserve_factor_bps / 10000) := by
  simp only [refreshReserve] at h
  split at h
  · rename_i hslots
    injection h with h
    subst h
    simp [accruedInterest, hslots, u64cast]
  · rename_i hslots
    split at h
    · exact Except.noConfusion h
    · rename_i liq heq
      injection h with h
      subst h
      split at heq
      · rename_i hcond
        have hs := accrueInterest_spec _ _ _ heq
        unfold accruedInterest
        rw [if_neg hslots, if_pos hcond]
        exact ⟨hs.1, hs.2.1⟩
      · rename_i hcond
        injection heq with heq
        subst heq
        unfold accruedInterest
        rw [if_neg hslots, if_neg hcond]
        simp [u64cast]

/-- C7: in any successful `refresh_reserve`, `total_borrows` increases by
exactly the accrued interest `I` (`interest_earned`), and
`accumulated_protocol_fees` increases by exactly
`⌊I * reserve_factor_bps / 10000⌋` (given the validated invariant
`reserve_factor_bps ≤ 10000`). -/
theorem c7_fee_split : ∀ (r : Reserve) (slot : Nat) (ts : Int),
    exIsOk (refreshReserve r slot ts) = true →
    r.config.interest_rate_config.reserve_factor_bps ≤ 10000 →
    (refreshStep r slot ts).liquidity.total_borrows =
      r.liquidity.total_borrows + accruedInterest r slot ts ∧
    (refreshStep r slot ts).liquidity.accumulated_protocol_fees =
      r.liquidity.accumulated_protocol_fees +
        accruedInterest r slot ts *
          r.config.interest_rate_config.reserve_factor_bps / 10000 := by
  intro r slot ts hok hrf
  rcases heq : refreshReserve r slot ts with e | r2
  · rw [heq] at hok
    exact absurd hok (by simp [exIsOk])
  · have hf := refreshReserve_fee r slot ts r2 heq
    have hlt : accruedInterest r slot ts *
        r.config.interest_rate_config.reserve_factor_bps / 10000 < U64_MOD :=
      lt_of_le_of_lt (div_bps_le _ _ hrf) (accruedInterest_lt r slot ts)
    have hstep : refreshStep r slot ts = r2 := by
      simp [refreshStep, heq, exGetD]
    rw [hstep]
    rw [u64cast_eq_of_lt hlt] at hf
    exact hf

/-- Quotient bound behind the accrual upper bound: dividing out the
`INDEX_ONE` scaling can only lose precision downwards. -/
theorem compound_bound (old rate tcap : Nat) :
    old * (INDEX_ONE + rate * tcap * INDEX_ONE / (10000 * SECONDS_PER_YEAR)) /
        INDEX_ONE * (10000 * SECONDS_PER_YEAR) ≤
      old * (10000 * SECONDS_PER_YEAR + rate * tcap) := by
  have h1 : old * (INDEX_ONE + rate * tcap * INDEX_ONE /
      (10000 * SECONDS_PER_YEAR)) / INDEX_ONE * INDEX_ONE ≤
      old * (INDEX_ONE + rate * tcap * INDEX_ONE /
        (10000 * SECONDS_PER_YEAR)) := Nat.div_mul_le_self _ _
  have h2 : rate * tcap * INDEX_ONE / (10000 * SECONDS_PER_YEAR) *
      (10000 * SECONDS_PER_YEAR) ≤ rate * tcap * INDEX_ONE :=
    Nat.div_mul_le_self _ _
  have key : old * (INDEX_ONE + rate * tcap * INDEX_ONE /
      (10000 * SECONDS_PER_YEAR)) / INDEX_ONE * (10000 * SECONDS_PER_YEAR) *
      INDEX_ONE ≤ old * (10000 * SECONDS_PER_YEAR + rate * tcap) *
        INDEX_ONE := by
    calc old * (INDEX_ONE + rate * tcap * INDEX_ONE /
          (10000 * SECONDS_PER_YEAR)) / INDEX_ONE *
          (10000 * SECONDS_PER_YEAR) * INDEX_ONE
        = old * (INDEX_ONE + rate * tcap * INDEX_ONE /
            (10000 * SECONDS_PER_YEAR)) / INDEX_ONE * INDEX_ONE *
            (10000 * SECONDS_PER_YEAR) := by ring
      _ ≤ old * (INDEX_ONE + rate * tcap * INDEX_ONE /
            (10000 * SECONDS_PER_YEAR)) * (10000 * SECONDS_PER_YEAR) :=
          Nat.mul_le_mul_right _ h1
      _ = old * INDEX_ONE * (10000 * SECONDS_PER_YEAR) +
            old * (rate * tcap * INDEX_ONE / (10000 * SECONDS_PER_YEAR) *
              (10000 * SECONDS_PER_YEAR)) := by ring
      _ ≤ old * INDEX_ONE * (10000 * SECONDS_PER_YEAR) +
            old * (rate * tcap * INDEX_ONE) :=
          Nat.add_le_add_left (Nat.mul_le_mul_left _ h2) _
      _ = old * (10000 * SECONDS_PER_YEAR + rate * tcap) * INDEX_ONE := by
          ring
  exact Nat.le_of_mul_le_mul_right key (by norm_num [INDEX_ONE])

/-- What a successful `refresh_reserve` guarantees about the new borrow
index relative to the rate and the capped elapsed time. -/
theorem refreshReserve_bi_bound (r : Reserve) (s : Nat) (t : Int)
    (r2 : Reserve) (h : refreshReserve r s t = .ok r2) :
    r2.liquidity.cumulative_borrow_index * (10000 * SECONDS_PER_YEAR) ≤
      r.liquidity.cumulative_borrow_index * (10000 * SECONDS_PER_YEAR +
        r.liquidity.current_borrow_rate_bps *
          (min (t - r.last_update_timestamp) (SECONDS_PER_YEAR : Int)).toNat) := by
  simp only [refreshReserve] at h
  split at h
  · injection h with h
    subst h
    exact Nat.mul_le_mul_left _ (Nat.le_add_right _ _)
  · split at h
    · exact Except.noConfusion h
    · rename_i liq heq
      injection h with h
      subst h
      split at heq
      · have hs := accrueInterest_spec _ _ _ heq
        have hbi : liq.cumulative_borrow_index =
            r.liquidity.cumulative_borrow_index *
              (INDEX_ONE + compoundFactorVal r
                (min (t - r.last_update_timestamp)
                  (SECONDS_PER_YEAR : Int)).toNat) / INDEX_ONE := hs.2.2
        show liq.cumulative_borrow_index * (10000 * SECONDS_PER_YEAR) ≤ _
        rw [hbi]
        exact compound_bound _ _ _
      · injection heq with heq
        subst heq
        exact Nat.mul_le_mul_left _ (Nat.le_add_right _ _)

/-- C8: after a successful `refresh_reserve` over `Δt` elapsed seconds the
new `cumulative_borrow_index` satisfies
`new ≤ old * (1 + rate/10000 * Δt_capped/SECONDS_PER_YEAR)` with
`Δt_capped = min Δt SECONDS_PER_YEAR`, stated as the cross-multiplied
inequality `new * (10000*year) ≤ old * (10000*year + rate * Δt_capped)`;
elapsed time beyond one year accrues nothing further. -/
theorem c8_accrual_upper_bound : ∀ (r : Reserve) (slot : Nat) (ts : Int),
    exIsOk (refreshReserve r slot ts) = true →
    (refreshStep r slot ts).liquidity.cumulative_borrow_index *
        (10000 * SECONDS_PER_YEAR) ≤
      r.liquidity.cumulative_borrow_index * (10000 * SECONDS_PER_YEAR +
        r.liquidity.current_borrow_rate_bps *
          (min (ts - r.last_update_timestamp)
            (SECONDS_PER_YEAR : Int)).toNat) := by
  intro r slot ts hok
  rcases heq : refreshReserve r slot ts with e | r2
  · rw [heq] at hok
    exact absurd hok (by simp [exIsOk])
  · have hstep : refreshStep r slot ts = r2 := by
      simp [refreshStep, heq, exGetD]
    rw [hstep]
    exact refreshReserve_bi_bound r slot ts r2 heq

/-! ## `refresh_obligation`
(`instructions/permissionless/refresh_obligation.rs`)

The handler's loops use the stored entry amounts at a hard-coded 1:1 USD
price with a hard-coded 6-decimal scale, and hard-coded 8000 bps LTV and
8500 bps liquidation threshold; they never read a reserve index, a reserve
config, or an oracle price. -/

/-- The USD value the handler assigns to a deposit entry
(`deposit_amount * USD_SCALE / 1_000_000`). -/
def placeholderDepositUsd (d : ObligationCollateral) : Nat :=
  d.deposited_amount * USD_SCALE / 1000000

/-- The USD value the handler assigns to a borrow entry. -/
def placeholderBorrowUsd (b : ObligationLiquidity) : Nat :=
  b.borrowed_amount * USD_SCALE / 1000000

/-- `refresh_obligation::handler`: rewrite every entry's
`market_value_usd` and recompute the four cached aggregates, then stamp
the slot.  (The loop accumulates while it rewrites; the map/fold split
below computes the same values.) -/
def refreshObligationUpdate (ob : Obligation) (current_slot : Nat) :
    Obligation :=
  { ob with
    deposits := ob.deposits.map
      (fun d => { d with market_value_usd := placeholderDepositUsd d })
    borrows := ob.borrows.map
      (fun b => { b with market_value_usd := placeholderBorrowUsd b })
    deposited_value_usd :=
      ob.deposits.foldl (fun s d => s + placeholderDepositUsd d) 0
    borrowed_value_usd :=
      ob.borrows.foldl (fun s b => s + placeholderBorrowUsd b) 0
    allowed_borrow_value_usd :=
      ob.deposits.foldl (fun s d => s + placeholderDepositUsd d * 8000 / 10000) 0
    unhealthy_borrow_value_usd :=
      ob.deposits.foldl
        (fun s d => s + placeholderDepositUsd d * 8500 / 10000) 0
    last_update_slot := current_slot }

/-! ## `borrow` (`instructions/user/borrow.rs`)

The model takes the fields the handler reads: the market's emergency flag
(an Anchor account constraint), the reserve, the obligation, the vault
token balance, the reserve's key, the clock, and the requested amount.
A `.error` result models the transaction aborting with every account
unchanged. -/

/-- Tail of `borrow::handler` once the health check has passed: commit the
new `total_borrows`, recompute the rates from the new utilization, and
stamp the slot/timestamp on both accounts. -/
def borrowCommit (r : Reserve) (ob1 : Obligation)
    (current_slot : Nat) (current_timestamp : Int) (amount : Nat) :
    Reserve × Obligation :=
  let r1 := { r with liquidity := { r.liquidity with
    total_borrows := r.liquidity.total_borrows + amount } }
  let utilization_bps := r1.calculate_utilization_bps
  let borrow_rate :=
    r1.config.interest_rate_config.calculate_borrow_rate utilization_bps
  let supply_rate :=
    r1.config.interest_rate_config.calculate_supply_rate borrow_rate
      utilization_bps
  ({ r1 with
     liquidity := { r1.liquidity with
                    current_borrow_rate_bps := borrow_rate
                    current_supply_rate_bps := supply_rate }
     last_update_slot := current_slot
     last_update_timestamp := current_timestamp },
   { ob1 with last_update_slot := current_slot })

/-- The obligation update of `borrow::handler`: fold accrued interest into
the existing borrow entry (Rust divides by the snapshot unguarded: a zero
snapshot panics, modelled as `Aborted`) or push a fresh entry. -/
def borrowUpdateObligation (ob : Obligation)
    (reserve_key current_borrow_index amount : Nat) :
    Except PErr Obligation :=
  match ob.find_borrow reserve_key with
  | some borrow_index =>
    let b := ob.borrows.getD borrow_index olDefault
    if b.borrow_index_snapshot = 0 then .error .Aborted
    else
      let current_borrow_amount :=
        b.borrowed_amount * current_borrow_index / b.borrow_index_snapshot
      if current_borrow_amount + amount < U128_MOD then
        let newEntry := { b with
          borrowed_amount := u64cast (current_borrow_amount + amount)
          borrow_index_snapshot := current_borrow_index }
        .ok { ob with borrows := ob.borrows.set borrow_index newEntry }
      else .error .MathOverflow
  | none =>
    if ob.borrows.length < MAX_OBLIGATION_BORROWS then
      .ok { ob with borrows := ob.borrows ++
            [⟨reserve_key, amount, current_borrow_index, 0⟩] }
    else .error .MaxBorrowsReached

/-- Update the obligation, run the post-borrow health check against the
cached aggregates, and commit. -/
def borrowFinish (r : Reserve) (ob : Obligation)
    (reserve_key current_slot : Nat) (current_timestamp : Int)
    (amount : Nat) : Except PErr (Reserve × Obligation) :=
  match borrowUpdateObligation ob reserve_key
      r.liquidity.cumulative_borrow_index amount with
  | .error e => .error e
  | .ok ob1 =>
    if ob1.borrowed_value_usd > 0 then
      match ob1.calculate_health_factor with
      | some hf =>
        if hf < MIN_HEALTH_FACTOR_AFTER_BORROW then
          .error .InsufficientHealthFactor
        else .ok (borrowCommit r ob1 current_slot current_timestamp amount)
      | none => .ok (borrowCommit r ob1 current_slot current_timestamp amount)
    else .ok (borrowCommit r ob1 current_slot current_timestamp amount)

/-- The limit / liquidity / capacity / vault guards of `borrow::handler`
(the two `MathOverflow` guards are the `checked_add`s in the borrow-limit
check and the `total_borrows` update). -/
def borrowGuards2 (r : Reserve) (ob : Obligation)
    (vault_amount reserve_key current_slot : Nat) (current_timestamp : Int)
    (amount : Nat) : Except PErr (Reserve × Obligation) :=
  if r.config.borrow_limit > 0 ∧
      ¬ r.liquidity.total_borrows + amount < U64_MOD then
    .error .MathOverflow
  else if r.config.borrow_limit > 0 ∧
      r.liquidity.total_borrows + amount > r.config.borrow_limit then
    .error .BorrowLimitExceeded
  else if amount > r.available_liquidity then .error .InsufficientLiquidity
  else if ob.remaining_borrow_capacity_usd = 0 then
    .error .InsufficientBorrowingCapacity
  else if vault_amount < amount then .error .InsufficientVaultBalance
  else if ¬ r.liquidity.total_borrows + amount < U64_MOD then
    .error .MathOverflow
  else borrowFinish r ob reserve_key current_slot current_timestamp amount

def borrowHandler (emergency_mode : Bool) (r : Reserve) (ob : Obligation)
    (vault_amount reserve_key current_slot : Nat) (current_timestamp : Int)
    (amount : Nat) : Except PErr (Reserve × Obligation) :=
  if emergency_mode then .error .EmergencyModeActive
  else if r.config.borrows_enabled = false then .error .BorrowsDisabled
  else if amount = 0 then .error .AmountZero
  else if amount < MIN_BORROW_AMOUNT then .error .AmountTooSmall
  else if r.is_stale current_slot MAX_RESERVE_STALENESS_SLOTS then
    .error .ReserveStale
  else if ob.has_deposits = false then .error .NoCollateral
  else borrowGuards2 r ob vault_amount reserve_key current_slot
    current_timestamp amount

/-- Total borrow step: on an error both accounts are unchanged. -/
def borrowStep (emergency_mode : Bool) (r : Reserve) (ob : Obligation)
    (vault_amount reserve_key current_slot : Nat) (current_timestamp : Int)
    (amount : Nat) : Reserve × Obligation :=
  exGetD (borrowHandler emergency_mode r ob vault_amount reserve_key
    current_slot current_timestamp amount) (r, ob)

theorem borrowFinish_health (r : Reserve) (ob : Obligation)
    (key slot : Nat) (ts : Int) (amt : Nat) (r2 : Reserve)
    (ob2 : Obligation)
    (h : borrowFinish r ob key slot ts amt = .ok (r2, ob2)) :
    ∀ hf, ob2.calculate_health_factor = some hf → 10000 ≤ hf := by
  simp only [borrowFinish] at h
  repeat' split at h
  all_goals try exact Except.noConfusion h
  · rename_i ob1 hequp hdebt oscr hf0 heq hlt
    injection h with hp
    have h2 : (borrowCommit r ob1 slot ts amt).2 = ob2 := congrArg Prod.snd hp
    subst h2
    intro hf hchf
    have hchf1 : ob1.calculate_health_factor = some hf := hchf
    rw [heq] at hchf1
    injection hchf1 with he
    subst he
    simp only [MIN_HEALTH_FACTOR_AFTER_BORROW] at hlt
    omega
  · rename_i ob1 hequp hdebt oscr heq
    injection h with hp
    have h2 : (borrowCommit r ob1 slot ts amt).2 = ob2 := congrArg Prod.snd hp
    subst h2
    intro hf hchf
    have hchf1 : ob1.calculate_health_factor = some hf := hchf
    rw [heq] at hchf1
    exact Option.noConfusion hchf1
  · rename_i ob1 hequp hdebt
    injection h with hp
    have h2 : (borrowCommit r ob1 slot ts amt).2 = ob2 := congrArg Prod.snd hp
    subst h2
    intro hf hchf
    have hchf1 : ob1.calculate_health_factor = some hf := hchf
    have hb0 : ob1.borrowed_value_usd = 0 := by omega
    unfold Obligation.calculate_health_factor at hchf1
    rw [if_pos hb0] at hchf1
    exact Option.noConfusion hchf1

theorem borrowGuards2_ok (r : Reserve) (ob : Obligation)
    (va key slot : Nat) (ts : Int) (amt : Nat) (p : Reserve × Obligation)
    (h : borrowGuards2 r ob va key slot ts amt = .ok p) :
    borrowFinish r ob key slot ts amt = .ok p := by
  simp only [borrowGuards2] at h
  repeat' split at h
  all_goals try exact Except.noConfusion h
  exact h

theorem borrowHandler_ok (em : Bool) (r : Reserve) (ob : Obligation)
    (va key slot : Nat) (ts : Int) (amt : Nat) (p : Reserve × Obligation)
    (h : borrowHandler em r ob va key slot ts amt = .ok p) :
    borrowFinish r ob key slot ts amt = .ok p := by
  simp only [borrowHandler] at h
  repeat' split at h
  all_goals try exact Except.noConfusion h
  exact borrowGuards2_ok r ob va key slot ts amt p h

/-- A successful borrow leaves an obligation whose (cached) health factor,
when defined, is at least `MIN_HEALTH_FACTOR_AFTER_BORROW`. -/
theorem borrowHandler_health (em : Bool) (r : Reserve) (ob : Obligation)
    (va key slot : Nat) (ts : Int) (amt : Nat) (r2 : Reserve)
    (ob2 : Obligation)
    (h : borrowHandler em r ob va key slot ts amt = .ok (r2, ob2)) :
    ∀ hf, ob2.calculate_health_factor = some hf → 10000 ≤ hf :=
  borrowFinish_health r ob key slot ts amt r2 ob2
    (borrowHandler_ok em r ob va key slot ts amt (r2, ob2) h)

/-! ## `withdraw` (`instructions/user/withdraw.rs`)

The two Rust `checked_sub`s (the remaining deposit and the
`total_deposits` update) are guaranteed to succeed by the earlier
`withdraw_amount ≤ current_deposit_amount ≤ available_liquidity ≤
total_deposits` requires, so they are modelled as plain (saturating-equal)
`Nat` subtraction. -/

/-- The health-factor gate of `withdraw::handler`, run only when the
obligation has borrow entries: a linear single-reserve estimate of the
post-withdrawal aggregates from the cached values, using this reserve's
LTV and liquidation threshold. -/
def withdrawHealthGate (r : Reserve) (ob : Obligation)
    (deposit_index current_deposit_amount withdraw_amount : Nat) :
    Except PErr Unit :=
  if ob.has_borrows then
    let d := ob.deposits.getD deposit_index ocDefault
    let withdrawPart :=
      if current_deposit_amount > 0 then
        withdraw_amount * 10000 / current_deposit_amount
      else 0
    let withdraw_value_usd := d.market_value_usd * withdrawPart / 10000
    let new_deposited_value_usd :=
      ob.deposited_value_usd - withdraw_value_usd
    if ob.borrowed_value_usd >
        new_deposited_value_usd * r.config.ltv_bps / 10000 then
      .error .InsufficientBorrowCapacity
    else
      let new_unhealthy_borrow_value_usd :=
        new_deposited_value_usd * r.config.liquidation_threshold_bps / 10000
      let new_health_factor :=
        if ob.borrowed_value_usd > 0 then
          u64cast (new_unhealthy_borrow_value_usd * 10000 /
            ob.borrowed_value_usd)
        else U64_MOD - 1
      if new_health_factor < MIN_HEALTH_FACTOR_AFTER_BORROW then
        .error .HealthFactorTooLow
      else if ob.is_healthy = false then .error .PositionUnhealthy
      else .ok ()
  else .ok ()

/-- Tail of `withdraw::handler`: shrink `total_deposits`, update or remove
the deposit entry, stamp the slot/timestamp. -/
def withdrawCommit (r : Reserve) (ob : Obligation)
    (deposit_index current_supply_index remaining_deposit
      withdraw_amount current_slot : Nat) (current_timestamp : Int) :
    Reserve × Obligation :=
  let ob1 :=
    if remaining_deposit = 0 then
      { ob with deposits := ob.deposits.eraseIdx deposit_index }
    else
      let d := ob.deposits.getD deposit_index ocDefault
      let newEntry := { d with
        deposited_amount := remaining_deposit
        supply_index_snapshot := current_supply_index }
      { ob with deposits := ob.deposits.set deposit_index newEntry }
  ({ r with
     liquidity := { r.liquidity with
       total_deposits := r.liquidity.total_deposits - withdraw_amount }
     last_update_slot := current_slot
     last_update_timestamp := current_timestamp },
   { ob1 with last_update_slot := current_slot })

def withdrawHandler (r : Reserve) (ob : Obligation)
    (vault_amount reserve_key current_slot : Nat) (current_timestamp : Int)
    (amount : Nat) : Except PErr (Reserve × Obligation) :=
  if r.is_stale current_slot MAX_RESERVE_STALENESS_SLOTS then
    .error .ReserveStale
  else
    match ob.find_deposit reserve_key with
    | none => .error .NoDepositFound
    | some deposit_index =>
      let d := ob.deposits.getD deposit_index ocDefault
      let current_deposit_amount :=
        if d.supply_index_snapshot > 0 then
          u64cast (d.deposited_amount * r.liquidity.cumulative_supply_index /
            d.supply_index_snapshot)
        else d.deposited_amount
      let withdraw_amount :=
        if amount = 0 then current_deposit_amount else amount
      if withdraw_amount > current_deposit_amount then
        .error .InsufficientDeposit
      else if withdraw_amount > r.available_liquidity then
        .error .InsufficientLiquidity
      else if vault_amount < withdraw_amount then
        .error .InsufficientVaultBalance
      else
        match withdrawHealthGate r ob deposit_index current_deposit_amount
            withdraw_amount with
        | .error e => .error e
        | .ok _ =>
          .ok (withdrawCommit r ob deposit_index
            r.liquidity.cumulative_supply_index
            (current_deposit_amount - withdraw_amount) withdraw_amount
            current_slot current_timestamp)

/-- Total withdraw step: on an error both accounts are unchanged. -/
def withdrawStep (r : Reserve) (ob : Obligation)
    (vault_amount reserve_key current_slot : Nat) (current_timestamp : Int)
    (amount : Nat) : Reserve × Obligation :=
  exGetD (withdrawHandler r ob vault_amount reserve_key current_slot
    current_timestamp amount) (r, ob)

/-- The withdraw commit never touches the borrow entries or the cached
USD aggregates the health factor is computed from. -/
theorem withdrawCommit_ob (r : Reserve) (ob : Obligation)
    (di csi rem wa slot : Nat) (ts : Int) :
    (withdrawCommit r ob di csi rem wa slot ts).2.calculate_health_factor =
      ob.calculate_health_factor ∧
    (withdrawCommit r ob di csi rem wa slot ts).2.borrows = ob.borrows := by
  unfold withdrawCommit Obligation.calculate_health_factor
  dsimp only
  split <;> simp

/-- A passing withdraw health gate on an obligation with borrows implies
the current cached position is healthy. -/
theorem withdrawHealthGate_healthy (r : Reserve) (ob : Obligation)
    (di cda wa : Nat) (u : Unit)
    (h : withdrawHealthGate r ob di cda wa = .ok u)
    (hb : ob.has_borrows = true) : ob.is_healthy = true := by
  simp only [withdrawHealthGate] at h
  rw [if_pos hb] at h
  repeat' split at h
  all_goals try exact Except.noConfusion h
  all_goals
    (rename_i hh; cases hob : ob.is_healthy;
     · exact absurd hob hh
     · rfl)

/-- A successful withdraw on an obligation that keeps at least one borrow
entry leaves a strictly healthy cached health factor. -/
theorem withdrawHandler_health (r : Reserve) (ob : Obligation)
    (va key slot : Nat) (ts : Int) (amt : Nat) (p : Reserve × Obligation)
    (h : withdrawHandler r ob va key slot ts amt = .ok p) :
    p.2.borrows ≠ [] →
    ∀ hf, p.2.calculate_health_factor = some hf → 10000 < hf := by
  simp only [withdrawHandler] at h
  repeat' split at h
  all_goals try exact Except.noConfusion h
  all_goals (
    rename_i gscr u hgate
    injection h with hp
    subst hp
    intro hb hf hchf
    rw [(withdrawCommit_ob _ _ _ _ _ _ _ _).2] at hb
    rw [(withdrawCommit_ob _ _ _ _ _ _ _ _).1] at hchf
    have hhb : ob.has_borrows = true := by
      simp [Obligation.has_borrows, List.isEmpty_iff, hb]
    have hhealthy := withdrawHealthGate_healthy _ _ _ _ _ _ hgate hhb
    unfold Obligation.is_healthy at hhealthy
    rw [hchf] at hhealthy
    exact of_decide_eq_true hhealthy)

/-! ## Claim C1 -/

/-- C1 (amended): a successful `borrow` leaves the obligation's cached
health factor, whenever it is defined (i.e. whenever
`borrowed_value_usd > 0`), at least `10000` — not strictly above it; a
successful `withdraw` leaves it strictly above `10000` provided the
obligation still has at least one borrow entry (with no borrow entries the
withdraw health gate is skipped even if stale cached debt remains). -/
theorem c1_health_after_borrow_withdraw :
    (∀ (em : Bool) (r : Reserve) (ob : Obligation) (va key slot : Nat)
        (ts : Int) (amt : Nat),
      exIsOk (borrowHandler em r ob va key slot ts amt) = true →
      ∀ hf, (borrowStep em r ob va key slot ts amt).2.calculate_health_factor
          = some hf → 10000 ≤ hf) ∧
    (∀ (r : Reserve) (ob : Obligation) (va key slot : Nat) (ts : Int)
        (amt : Nat),
      exIsOk (withdrawHandler r ob va key slot ts amt) = true →
      (withdrawStep r ob va key slot ts amt).2.borrows ≠ [] →
      ∀ hf, (withdrawStep r ob va key slot ts amt).2.calculate_health_factor
          = some hf → 10000 < hf) := by
  constructor
  · intro em r ob va key slot ts amt hok
    rcases heq : borrowHandler em r ob va key slot ts amt with e | p
    · rw [heq] at hok
      exact absurd hok (by simp [exIsOk])
    · have hstep : borrowStep em r ob va key slot ts amt = p := by
        simp [borrowStep, heq, exGetD]
      rw [hstep]
      exact borrowHandler_health em r ob va key slot ts amt p.1 p.2
        (by rw [heq])
  · intro r ob va key slot ts amt hok
    rcases heq : withdrawHandler r ob va key slot ts amt with e | p
    · rw [heq] at hok
      exact absurd hok (by simp [exIsOk])
    · have hstep : withdrawStep r ob va key slot ts amt = p := by
        simp [withdrawStep, heq, exGetD]
      rw [hstep]
      exact withdrawHandler_health r ob va key slot ts amt p heq

def c1Reserve : Reserve :=
  { last_update_slot := 100
    last_update_timestamp := 100
    config :=
      { ltv_bps := 8000, liquidation_threshold_bps := 8500
        deposit_limit := 0, borrow_limit := 0
        deposits_enabled := true, borrows_enabled := true
        interest_rate_config :=
          { optimal_utilization_bps := 8000, base_rate_bps := 200
            slope1_bps := 1000, slope2_bps := 10000
            reserve_factor_bps := 1000 } }
    liquidity :=
      { total_deposits := 10000000, total_borrows := 0
        accumulated_protocol_fees := 0
        cumulative_borrow_index := INDEX_ONE
        cumulative_supply_index := INDEX_ONE
        current_borrow_rate_bps := 200, current_supply_rate_bps := 0 } }

/-- An obligation whose cached debt sits exactly at the liquidation
threshold value: health factor exactly `10000`. -/
def c1Obligation : Obligation :=
  { last_update_slot := 100
    deposits := [⟨5, 1000000, INDEX_ONE, 1000000⟩]
    borrows := []
    deposited_value_usd := 1000000
    borrowed_value_usd := 100
    allowed_borrow_value_usd := 200
    unhealthy_borrow_value_usd := 100 }

/-- C1 counterexample: this borrow succeeds although it leaves the
obligation with cached debt and health factor exactly `10000`, not
strictly greater — the handler only requires
`hf ≥ MIN_HEALTH_FACTOR_AFTER_BORROW`. -/
theorem c1_counterexample :
    exIsOk (borrowHandler false c1Reserve c1Obligation 1000000 7 100 100
      1000) = true ∧
    0 < (borrowStep false c1Reserve c1Obligation 1000000 7 100 100
      1000).2.borrowed_value_usd ∧
    (borrowStep false c1Reserve c1Obligation 1000000 7 100 100
      1000).2.calculate_health_factor = some 10000 ∧
    ¬ (10000 : Nat) > 10000 := by decide

/-- Same as `c1Obligation` but with health factor 1.5 (15000). -/
def c1wObligation : Obligation :=
  { c1Obligation with unhealthy_borrow_value_usd := 150 }

/-- A healthy obligation (health factor 10500) holding a deposit in
reserve `7` and a borrow in reserve `5`. -/
def c1wWithdrawOb : Obligation :=
  { last_update_slot := 100
    deposits := [⟨7, 10000, INDEX_ONE, 10000⟩]
    borrows := [⟨5, 100, INDEX_ONE, 100⟩]
    deposited_value_usd := 10000
    borrowed_value_usd := 100
    allowed_borrow_value_usd := 8000
    unhealthy_borrow_value_usd := 105 }

/-- C1 witness: the amended theorem applied to a concrete successful
borrow (health 15000) and a concrete successful withdraw (health 10500). -/
theorem c1_witness : (10000 : Nat) ≤ 15000 ∧ (10000 : Nat) < 10500 :=
  ⟨c1_health_after_borrow_withdraw.1 false c1Reserve c1wObligation 1000000 7
      100 100 1000 (by decide) 15000 (by decide),
   c1_health_after_borrow_withdraw.2 c1Reserve c1wWithdrawOb 1000000 7 100
      100 1000 (by decide) (by decide) 10500 (by decide)⟩

/-! ## Claim C9 -/

def c9Reserve : Reserve :=
  { c1Reserve with liquidity := { c1Reserve.liquidity with
      total_deposits := 10000000000000 } }

/-- An obligation refreshed to `allowed_borrow_value_usd = $800` (scale
`1e6`) with no debt: the situation of the spec's borrow-at-capacity
scenario. -/
def c9Obligation : Obligation :=
  { last_update_slot := 100
    deposits := [⟨5, 1000000000, INDEX_ONE, 1000000000⟩]
    borrows := []
    deposited_value_usd := 1000000000
    borrowed_value_usd := 0
    allowed_borrow_value_usd := 800000000
    unhealthy_borrow_value_usd := 850000000 }

/-- C9: the code evaluated at the spec's failing input.  A borrow of
801 000 000 native units ($801 at the 1:1 price and 6 decimals) against a
capacity of $800 SUCCEEDS — the handler only requires
`remaining_borrow_capacity_usd > 0` and never compares the borrow amount
against the capacity — and the cached capacity afterwards is still $800
because `borrow` does not update `borrowed_value_usd`. -/
theorem c9_capacity_not_enforced :
    exIsOk (borrowHandler false c9Reserve c9Obligation 1000000000000 7 100
      100 801000000) = true ∧
    (borrowStep false c9Reserve c9Obligation 1000000000000 7 100 100
      801000000).2.remaining_borrow_capacity_usd = 800000000 := by decide

/-! ## Witnesses for the refresh claims -/

/-- A reserve with a year of pending accrual at a 10% borrow rate and a
10% reserve factor: refresh earns interest `10^8`, protocol cut `10^7`. -/
def c7Reserve : Reserve :=
  { last_update_slot := 0
    last_update_timestamp := 0
    config := c1Reserve.config
    liquidity :=
      { total_deposits := 2000000000, total_borrows := 1000000000
        accumulated_protocol_fees := 7
        cumulative_borrow_index := INDEX_ONE
        cumulative_supply_index := INDEX_ONE
        current_borrow_rate_bps := 1000, current_supply_rate_bps := 0 } }

/-- C7 witness: the fee-split theorem at a concrete accruing refresh. -/
theorem c7_witness :
    (refreshStep c7Reserve 10 31536000).liquidity.total_borrows =
      c7Reserve.liquidity.total_borrows +
        accruedInterest c7Reserve 10 31536000 ∧
    (refreshStep c7Reserve 10 31536000).liquidity.accumulated_protocol_fees =
      c7Reserve.liquidity.accumulated_protocol_fees +
        accruedInterest c7Reserve 10 31536000 *
          c7Reserve.config.interest_rate_config.reserve_factor_bps / 10000 :=
  c7_fee_split c7Reserve 10 31536000 (by decide) (by decide)

/-! ## `deposit` (`instructions/user/deposit.rs`) -/

/-- The obligation update of `deposit::handler`: fold accrued interest
into the existing entry (the Rust division by the snapshot is unguarded:
a zero snapshot panics, modelled as `Aborted`) or push a fresh entry. -/
def depositUpdateObligation (ob : Obligation)
    (reserve_key current_supply_index amount : Nat) :
    Except PErr Obligation :=
  match ob.find_deposit reserve_key with
  | some deposit_index =>
    let d := ob.deposits.getD deposit_index ocDefault
    if d.supply_index_snapshot = 0 then .error .Aborted
    else
      let current_amount :=
        d.deposited_amount * current_supply_index / d.supply_index_snapshot
      if current_amount + amount < U128_MOD then
        let newEntry := { d with
          deposited_amount := u64cast (current_amount + amount)
          supply_index_snapshot := current_supply_index }
        .ok { ob with deposits := ob.deposits.set deposit_index newEntry }
      else .error .MathOverflow
  | none =>
    if ob.deposits.length < MAX_OBLIGATION_DEPOSITS then
      .ok { ob with deposits := ob.deposits ++
            [⟨reserve_key, amount, current_supply_index, 0⟩] }
    else .error .MaxDepositsReached

/-- Tail of `deposit::handler`: grow `total_deposits` and stamp the
slot/timestamp (deposit recomputes no rates). -/
def depositCommit (r : Reserve) (ob1 : Obligation) (current_slot : Nat)
    (current_timestamp : Int) (amount : Nat) : Reserve × Obligation :=
  ({ r with
     liquidity := { r.liquidity with
       total_deposits := r.liquidity.total_deposits + amount }
     last_update_slot := current_slot
     last_update_timestamp := current_timestamp },
   { ob1 with last_update_slot := current_slot })

def depositHandler (emergency_mode : Bool) (r : Reserve) (ob : Obligation)
    (reserve_key current_slot : Nat) (current_timestamp : Int)
    (amount : Nat) : Except PErr (Reserve × Obligation) :=
  if emergency_mode then .error .EmergencyModeActive
  else if r.config.deposits_enabled = false then .error .DepositsDisabled
  else if amount = 0 then .error .AmountZero
  else if amount < MIN_DEPOSIT_AMOUNT then .error .AmountTooSmall
  else if r.is_stale current_slot MAX_RESERVE_STALENESS_SLOTS then
    .error .ReserveStale
  else if r.config.deposit_limit > 0 ∧
      ¬ r.liquidity.total_deposits + amount < U64_MOD then
    .error .MathOverflow
  else if r.config.deposit_limit > 0 ∧
      r.liquidity.total_deposits + amount > r.config.deposit_limit then
    .error .DepositLimitExceeded
  else if ¬ r.liquidity.total_deposits + amount < U64_MOD then
    .error .MathOverflow
  else
    match depositUpdateObligation ob reserve_key
        r.liquidity.cumulative_supply_index amount with
    | .error e => .error e
    | .ok ob1 => .ok (depositCommit r ob1 current_slot current_timestamp
        amount)

/-- Total deposit step: on an error both accounts are unchanged. -/
def depositStep (emergency_mode : Bool) (r : Reserve) (ob : Obligation)
    (reserve_key current_slot : Nat) (current_timestamp : Int)
    (amount : Nat) : Reserve × Obligation :=
  exGetD (depositHandler emergency_mode r ob reserve_key current_slot
    current_timestamp amount) (r, ob)

/-! ## `repay` (`instructions/user/repay.rs`) -/

/-- Tail of `repay::handler`: shrink `total_borrows`, update or remove the
borrow entry, recompute the rates and stamp the slot/timestamp.  (The
`remaining_borrow` `checked_sub` cannot fail because
`repay_amount ≤ current_borrow_amount` by construction.) -/
def repayCommit (r : Reserve) (ob : Obligation)
    (borrow_index current_borrow_amount repay_amount current_slot : Nat)
    (current_timestamp : Int) : Reserve × Obligation :=
  let remaining_borrow := current_borrow_amount - repay_amount
  let ob1 :=
    if remaining_borrow = 0 then
      { ob with borrows := ob.borrows.eraseIdx borrow_index }
    else
      let b := ob.borrows.getD borrow_index olDefault
      let newEntry := { b with
        borrowed_amount := remaining_borrow
        borrow_index_snapshot := r.liquidity.cumulative_borrow_index }
      { ob with borrows := ob.borrows.set borrow_index newEntry }
  let r1 := { r with liquidity := { r.liquidity with
    total_borrows := r.liquidity.total_borrows - repay_amount } }
  let utilization_bps := r1.calculate_utilization_bps
  let borrow_rate :=
    r1.config.interest_rate_config.calculate_borrow_rate utilization_bps
  let supply_rate :=
    r1.config.interest_rate_config.calculate_supply_rate borrow_rate
      utilization_bps
  ({ r1 with
     liquidity := { r1.liquidity with
                    current_borrow_rate_bps := borrow_rate
                    current_supply_rate_bps := supply_rate }
     last_update_slot := current_slot
     last_update_timestamp := current_timestamp },
   { ob1 with last_update_slot := current_slot })

def repayHandler (r : Reserve) (ob : Obligation)
    (reserve_key current_slot : Nat) (current_timestamp : Int)
    (amount : Nat) : Except PErr (Reserve × Obligation) :=
  if r.is_stale current_slot MAX_RESERVE_STALENESS_SLOTS then
    .error .ReserveStale
  else
    match ob.find_borrow reserve_key with
    | none => .error .NoBorrowFound
    | some borrow_index =>
      let b := ob.borrows.getD borrow_index olDefault
      let current_borrow_amount :=
        if b.borrow_index_snapshot > 0 then
          u64cast (b.borrowed_amount * r.liquidity.cumulative_borrow_index /
            b.borrow_index_snapshot)
        else b.borrowed_amount
      if current_borrow_amount = 0 then .error .NothingToRepay
      else
        let repay_amount :=
          if amount = 0 ∨ amount ≥ current_borrow_amount then
            current_borrow_amount
          else amount
        if ¬ repay_amount ≤ r.liquidity.total_borrows then
          .error .MathOverflow
        else
          .ok (repayCommit r ob borrow_index current_borrow_amount
            repay_amount current_slot current_timestamp)

/-- Total repay step: on an error both accounts are unchanged. -/
def repayStep (r : Reserve) (ob : Obligation)
    (reserve_key current_slot : Nat) (current_timestamp : Int)
    (amount : Nat) : Reserve × Obligation :=
  exGetD (repayHandler r ob reserve_key current_slot current_timestamp
    amount) (r, ob)

/-! ## `liquidate` (`instructions/permissionless/liquidate.rs`)

`liquidate::handler` reads the market's `close_factor_bps`,
`liquidation_bonus_bps` and `protocol_fee_bps`; the result record also
carries the event quantities (`actual_repay`, `collateral_seized`,
`protocol_fee`, `liquidator_reward`) and the computed
`current_borrow_amount`.  Note: the handler performs no reserve staleness
check. -/

structure LiqResult where
  repay_reserve : Reserve
  collateral_reserve : Reserve
  obligation : Obligation
  current_borrow_amount : Nat
  actual_repay : Nat
  collateral_seized : Nat
  protocol_fee : Nat
  liquidator_reward : Nat
  deriving Repr, DecidableEq

/-- Tail of `liquidate::handler` after the seize amount is validated:
update both reserves (saturating), reduce or remove the borrow entry,
re-find the collateral entry (entry removal may have shifted indices),
reduce or remove it, and stamp the clocks.  `liquidator_reward` is
`collateral_to_seize.saturating_sub(protocol_fee)`. -/
def liquidateCommit (rr cr : Reserve) (ob : Obligation)
    (collateral_key borrow_index current_borrow_amount actual_repay
      current_deposit_amount collateral_to_seize protocol_fee
      current_slot : Nat) (current_timestamp : Int) :
    Except PErr LiqResult :=
  let rr1 := { rr with
    liquidity := { rr.liquidity with
      total_borrows := rr.liquidity.total_borrows - actual_repay }
    last_update_slot := current_slot
    last_update_timestamp := current_timestamp }
  let cr1 := { cr with
    liquidity := { cr.liquidity with
      total_deposits := cr.liquidity.total_deposits - collateral_to_seize }
    last_update_slot := current_slot
    last_update_timestamp := current_timestamp }
  let remaining_borrow := current_borrow_amount - actual_repay
  let ob1 :=
    if remaining_borrow = 0 then
      { ob with borrows := ob.borrows.eraseIdx borrow_index }
    else
      let b := ob.borrows.getD borrow_index olDefault
      let newB := { b with
        borrowed_amount := remaining_borrow
        borrow_index_snapshot := rr.liquidity.cumulative_borrow_index }
      { ob with borrows := ob.borrows.set borrow_index newB }
  match ob1.find_deposit collateral_key with
  | none => .error .NoCollateralFound
  | some deposit_index =>
    let remaining_deposit := current_deposit_amount - collateral_to_seize
    let ob2 :=
      if remaining_deposit = 0 then
        { ob1 with deposits := ob1.deposits.eraseIdx deposit_index }
      else
        let d := ob1.deposits.getD deposit_index ocDefault
        let newD := { d with
          deposited_amount := remaining_deposit
          supply_index_snapshot := cr.liquidity.cumulative_supply_index }
        { ob1 with deposits := ob1.deposits.set deposit_index newD }
    .ok { repay_reserve := rr1
          collateral_reserve := cr1
          obligation := { ob2 with last_update_slot := current_slot }
          current_borrow_amount := current_borrow_amount
          actual_repay := actual_repay
          collateral_seized := collateral_to_seize
          protocol_fee := protocol_fee
          liquidator_reward := collateral_to_seize - protocol_fee }

def liquidateHandler (close_factor_bps liquidation_bonus_bps
      protocol_fee_bps : Nat) (rr cr : Reserve) (ob : Obligation)
    (repay_key collateral_key current_slot : Nat) (current_timestamp : Int)
    (repay_amount : Nat) : Except PErr LiqResult :=
  if ob.is_liquidatable = false then .error .ObligationHealthy
  else
    match ob.find_borrow repay_key with
    | none => .error .NoBorrowFound
    | some borrow_index =>
      match ob.find_deposit collateral_key with
      | none => .error .NoCollateralFound
      | some deposit_index =>
        let b := ob.borrows.getD borrow_index olDefault
        let current_borrow_amount :=
          if b.borrow_index_snapshot > 0 then
            u64cast (b.borrowed_amount *
              rr.liquidity.cumulative_borrow_index / b.borrow_index_snapshot)
          else b.borrowed_amount
        let max_repay :=
          u64cast (current_borrow_amount * close_factor_bps / 10000)
        let actual_repay :=
          min (min repay_amount max_repay) current_borrow_amount
        if actual_repay = 0 then .error .RepayAmountTooSmall
        else
          let collateral_to_seize :=
            u64cast (actual_repay * (10000 + liquidation_bonus_bps) / 10000)
          let d := ob.deposits.getD deposit_index ocDefault
          let current_deposit_amount :=
            if d.supply_index_snapshot > 0 then
              u64cast (d.deposited_amount *
                cr.liquidity.cumulative_supply_index /
                d.supply_index_snapshot)
            else d.deposited_amount
          if ¬ collateral_to_seize ≤ current_deposit_amount then
            .error .InsufficientCollateral
          else
            let protocol_fee := u64cast ((collateral_to_seize -
              actual_repay) * protocol_fee_bps / 10000)
            liquidateCommit rr cr ob collateral_key borrow_index
              current_borrow_amount actual_repay current_deposit_amount
              collateral_to_seize protocol_fee current_slot
              current_timestamp

def rzero : Reserve :=
  { last_update_slot := 0, last_update_timestamp := 0
    config := { ltv_bps := 0, liquidation_threshold_bps := 0
                deposit_limit := 0, borrow_limit := 0
                deposits_enabled := false, borrows_enabled := false
                interest_rate_config := ⟨0, 0, 0, 0, 0⟩ }
    liquidity := ⟨0, 0, 0, 0, 0, 0, 0⟩ }

def obzero : Obligation := ⟨0, [], [], 0, 0, 0, 0⟩

def liqResultD : LiqResult := ⟨rzero, rzero, obzero, 0, 0, 0, 0, 0⟩

/-- Total liquidate step (only meaningful when the handler succeeds). -/
def liquidateStep (close_factor_bps liquidation_bonus_bps
      protocol_fee_bps : Nat) (rr cr : Reserve) (ob : Obligation)
    (repay_key collateral_key current_slot : Nat) (current_timestamp : Int)
    (repay_amount : Nat) : LiqResult :=
  exGetD (liquidateHandler close_factor_bps liquidation_bonus_bps
    protocol_fee_bps rr cr ob repay_key collateral_key current_slot
    current_timestamp repay_amount) liqResultD

/-! ## Claim C4 -/

theorem getD_borrowed_lt (l : List ObligationLiquidity) (i : Nat)
    (hall : ∀ bb ∈ l, bb.borrowed_amount < U64_MOD) :
    (l.getD i olDefault).borrowed_amount < U64_MOD := by
  induction l generalizing i with
  | nil =>
    simp only [List.getD_nil, olDefault]
    norm_num [U64_MOD]
  | cons a t ih =>
    cases i with
    | zero => simpa using hall a (by simp)
    | succ n =>
      rw [List.getD_cons_succ]
      exact ih n (fun bb hbb => hall bb (by simp [hbb]))

/-- What a successful `liquidateCommit` records: the event quantities and
the frame facts about both reserves. -/
theorem liquidateCommit_spec (rr cr : Reserve) (ob : Obligation)
    (ck bi cb ar cda seize pf slot : Nat) (ts : Int) (res : LiqResult)
    (h : liquidateCommit rr cr ob ck bi cb ar cda seize pf slot ts =
      .ok res) :
    res.current_borrow_amount = cb ∧
    res.actual_repay = ar ∧
    res.collateral_seized = seize ∧
    res.protocol_fee = pf ∧
    res.liquidator_reward = seize - pf ∧
    res.repay_reserve.liquidity.cumulative_borrow_index =
      rr.liquidity.cumulative_borrow_index ∧
    res.repay_reserve.liquidity.cumulative_supply_index =
      rr.liquidity.cumulative_supply_index ∧
    res.repay_reserve.last_update_slot = slot ∧
    res.repay_reserve.last_update_timestamp = ts ∧
    res.collateral_reserve.liquidity.cumulative_borrow_index =
      cr.liquidity.cumulative_borrow_index ∧
    res.collateral_reserve.liquidity.cumulative_supply_index =
      cr.liquidity.cumulative_supply_index ∧
    res.collateral_reserve.last_update_slot = slot ∧
    res.collateral_reserve.last_update_timestamp = ts := by
  simp only [liquidateCommit] at h
  repeat' split at h
  all_goals try exact Except.noConfusion h
  all_goals
    (injection h with h; subst h;
     exact ⟨rfl, rfl, rfl, rfl, rfl, rfl, rfl, rfl, rfl, rfl, rfl, rfl,
       rfl⟩)

/-- The quantities a successful liquidation computes, in terms of the
result's own `current_borrow_amount`. -/
theorem liquidateHandler_spec (cf bb fb : Nat) (rr cr : Reserve)
    (ob : Obligation) (rk ck slot : Nat) (ts : Int) (req : Nat)
    (res : LiqResult)
    (h : liquidateHandler cf bb fb rr cr ob rk ck slot ts req = .ok res)
    (hall : ∀ e ∈ ob.borrows, e.borrowed_amount < U64_MOD) :
    res.current_borrow_amount < U64_MOD ∧
    res.actual_repay = min (min req
      (u64cast (res.current_borrow_amount * cf / 10000)))
      res.current_borrow_amount ∧
    res.collateral_seized =
      u64cast (res.actual_repay * (10000 + bb) / 10000) ∧
    res.protocol_fee = u64cast ((res.collateral_seized -
      res.actual_repay) * fb / 10000) ∧
    res.liquidator_reward = res.collateral_seized - res.protocol_fee := by
  simp only [liquidateHandler] at h
  repeat' split at h
  all_goals try exact Except.noConfusion h
  all_goals (
    obtain ⟨h1, h2, h3, h4, h5, hrest⟩ :=
      liquidateCommit_spec _ _ _ _ _ _ _ _ _ _ _ _ _ h
    refine ⟨?_, ?_, ?_, ?_, ?_⟩
    · rw [h1]
      first
      | exact u64cast_lt _
      | exact getD_borrowed_lt _ _ hall
    · rw [h1]
      exact h2
    · rw [h3, h2]
    · rw [h4, h3, h2]
    · rw [h5, h3, h4])

/-- C4 (amended): in every successful liquidation with validated market
parameters (`close_factor_bps ≤ 10000`, `protocol_fee_bps ≤ 10000`),
bounded (`u64`) borrow entries, and no `u64` truncation in the
collateral computation (`actual_repay × (10000+bonus)/10000 < 2^64`):
`actual_repay = min(request, current_borrow × close_factor/10000,
current_borrow)` (hence `actual_repay ≤ current_borrow × close/10000`),
`collateral_seized = actual_repay × (10000+bonus)/10000 ≥ actual_repay`,
`protocol_fee = (collateral_seized − actual_repay) × fee/10000`, and
`protocol_fee + liquidator_reward = collateral_seized`.  Without the
no-truncation hypothesis `collateral_seized ≥ actual_repay` fails (see
the counterexample). -/
theorem c4_liquidation_arithmetic : ∀ (cf bb fb : Nat) (rr cr : Reserve)
    (ob : Obligation) (rk ck slot : Nat) (ts : Int) (req : Nat),
    exIsOk (liquidateHandler cf bb fb rr cr ob rk ck slot ts req) = true →
    cf ≤ 10000 → fb ≤ 10000 →
    (∀ e ∈ ob.borrows, e.borrowed_amount < U64_MOD) →
    (liquidateStep cf bb fb rr cr ob rk ck slot ts req).actual_repay *
        (10000 + bb) / 10000 < U64_MOD →
    ((liquidateStep cf bb fb rr cr ob rk ck slot ts req).actual_repay =
      min (min req
        ((liquidateStep cf bb fb rr cr ob rk ck slot ts
          req).current_borrow_amount * cf / 10000))
        (liquidateStep cf bb fb rr cr ob rk ck slot ts
          req).current_borrow_amount ∧
    (liquidateStep cf bb fb rr cr ob rk ck slot ts req).actual_repay ≤
      (liquidateStep cf bb fb rr cr ob rk ck slot ts
        req).current_borrow_amount * cf / 10000 ∧
    (liquidateStep cf bb fb rr cr ob rk ck slot ts req).actual_repay ≤
      (liquidateStep cf bb fb rr cr ob rk ck slot ts
        req).collateral_seized ∧
    (liquidateStep cf bb fb rr cr ob rk ck slot ts req).collateral_seized =
      (liquidateStep cf bb fb rr cr ob rk ck slot ts req).actual_repay *
        (10000 + bb) / 10000 ∧
    (liquidateStep cf bb fb rr cr ob rk ck slot ts req).protocol_fee =
      ((liquidateStep cf bb fb rr cr ob rk ck slot ts
        req).collateral_seized -
        (liquidateStep cf bb fb rr cr ob rk ck slot ts
          req).actual_repay) * fb / 10000 ∧
    (liquidateStep cf bb fb rr cr ob rk ck slot ts req).protocol_fee +
      (liquidateStep cf bb fb rr cr ob rk ck slot ts
        req).liquidator_reward =
      (liquidateStep cf bb fb rr cr ob rk ck slot ts
        req).collateral_seized) := by
  intro cf bb fb rr cr ob rk ck slot ts req hok hcf hfb hall hnt
  rcases heq : liquidateHandler cf bb fb rr cr ob rk ck slot ts req with
    e | res
  · rw [heq] at hok
    exact absurd hok (by simp [exIsOk])
  · have hstep : liquidateStep cf bb fb rr cr ob rk ck slot ts req = res := by
      simp [liquidateStep, heq, exGetD]
    rw [hstep] at hnt ⊢
    obtain ⟨hcblt, har, hseize, hpf, hrw⟩ :=
      liquidateHandler_spec cf bb fb rr cr ob rk ck slot ts req res heq hall
    have hmax : u64cast (res.current_borrow_amount * cf / 10000) =
        res.current_borrow_amount * cf / 10000 :=
      u64cast_eq_of_lt (lt_of_le_of_lt (div_bps_le _ _ hcf) hcblt)
    rw [hmax] at har
    have hseize2 : res.collateral_seized =
        res.actual_repay * (10000 + bb) / 10000 := by
      rw [hseize]
      exact u64cast_eq_of_lt hnt
    have harle : res.actual_repay ≤ res.collateral_seized := by
      rw [hseize2]
      have hm : res.actual_repay * 10000 ≤
          res.actual_repay * (10000 + bb) :=
        Nat.mul_le_mul_left _ (by omega)
      have hd := Nat.div_le_div_right (c := 10000) hm
      rw [Nat.mul_div_cancel _ (by norm_num)] at hd
      exact hd
    have hslt : res.collateral_seized < U64_MOD := by
      rw [hseize2]
      exact hnt
    have hpf2 : res.protocol_fee =
        (res.collateral_seized - res.actual_repay) * fb / 10000 := by
      rw [hpf]
      exact u64cast_eq_of_lt (lt_of_le_of_lt (div_bps_le _ _ hfb)
        (by omega))
    have hple : res.protocol_fee ≤ res.collateral_seized := by
      rw [hpf2]
      exact le_trans (div_bps_le _ _ hfb) (by omega)
    refine ⟨har, ?_, harle, hseize2, hpf2, ?_⟩
    · rw [har]
      exact le_trans (Nat.min_le_left _ _) (Nat.min_le_right _ _)
    · rw [hrw]
      omega

def c4RepayReserve : Reserve :=
  { c1Reserve with liquidity := { c1Reserve.liquidity with
      total_borrows := 18000000000000000000 } }

def c4CollateralReserve : Reserve := c1Reserve

/-- A liquidatable obligation (health 5000) with an 18·10¹⁸-unit debt in
reserve `11` and a 10¹⁸-unit deposit in reserve `13`. -/
def c4Obligation : Obligation :=
  { last_update_slot := 0
    deposits := [⟨13, 1000000000000000000, INDEX_ONE, 0⟩]
    borrows := [⟨11, 18000000000000000000, INDEX_ONE, 0⟩]
    deposited_value_usd := 0, borrowed_value_usd := 100
    allowed_borrow_value_usd := 0, unhealthy_borrow_value_usd := 50 }

/-- C4 counterexample: with validated market parameters (close factor
10000, bonus 500, fee 1000) this liquidation of an 18·10¹⁸-unit debt
succeeds, yet `actual_repay × 10500 / 10000` overflows the Rust `as u64`
cast, so the seized collateral (453 255 926 290 448 384) is *less* than
the repaid amount — refuting `collateral_seized ≥ actual_repay` as
stated. -/
theorem c4_counterexample :
    exIsOk (liquidateHandler 10000 500 1000 c4RepayReserve
      c4CollateralReserve c4Obligation 11 13 5 0
      18000000000000000000) = true ∧
    (liquidateStep 10000 500 1000 c4RepayReserve c4CollateralReserve
      c4Obligation 11 13 5 0 18000000000000000000).collateral_seized <
    (liquidateStep 10000 500 1000 c4RepayReserve c4CollateralReserve
      c4Obligation 11 13 5 0 18000000000000000000).actual_repay := by
  decide

/-- A small liquidatable obligation: 1000-unit debt in reserve `11`,
1000-unit deposit in reserve `13`. -/
def c4wObligation : Obligation :=
  { last_update_slot := 0
    deposits := [⟨13, 1000, INDEX_ONE, 0⟩]
    borrows := [⟨11, 1000, INDEX_ONE, 0⟩]
    deposited_value_usd := 0, borrowed_value_usd := 100
    allowed_borrow_value_usd := 0, unhealthy_borrow_value_usd := 50 }

/-- C4 witness: the amended theorem at a concrete liquidation (close
factor 5000, bonus 500, fee 1000, repay request 500 of a 1000-unit
debt). -/
theorem c4_witness :
    (liquidateStep 5000 500 1000 c1Reserve c1Reserve c4wObligation 11 13 5
      0 500).actual_repay =
      min (min 500 ((liquidateStep 5000 500 1000 c1Reserve c1Reserve
        c4wObligation 11 13 5 0 500).current_borrow_amount * 5000 / 10000))
        (liquidateStep 5000 500 1000 c1Reserve c1Reserve c4wObligation 11
          13 5 0 500).current_borrow_amount :=
  (c4_liquidation_arithmetic 5000 500 1000 c1Reserve c1Reserve
    c4wObligation 11 13 5 0 500 (by decide) (by decide) (by decide)
    (by decide) (by decide)).1

/-! ## Claim C2 -/

/-- C2 (amended): `is_liquidatable()` holds iff there is cached debt
(`borrowed_value_usd > 0`) and the computed (u64-truncated) health factor
`⌊unhealthy_borrow_value_usd * 10000 / borrowed_value_usd⌋` is at most
`10000`; in particular `borrowed_value_usd > 0` together with
`borrowed_value_usd ≥ unhealthy_borrow_value_usd` implies liquidatable
(the converse fails by rounding); and `calculate_health_factor()` is
`none` iff `borrowed_value_usd = 0`. -/
theorem c2_health_factor_law : ∀ ob : Obligation,
    (ob.is_liquidatable = true ↔
      (0 < ob.borrowed_value_usd ∧
        u64cast (ob.unhealthy_borrow_value_usd * 10000 /
          ob.borrowed_value_usd) ≤ 10000)) ∧
    (0 < ob.borrowed_value_usd →
      ob.unhealthy_borrow_value_usd ≤ ob.borrowed_value_usd →
      ob.is_liquidatable = true) ∧
    (ob.calculate_health_factor = none ↔ ob.borrowed_value_usd = 0) := by
  intro ob
  unfold Obligation.is_liquidatable Obligation.is_healthy
    Obligation.calculate_health_factor
  by_cases hb : ob.borrowed_value_usd = 0
  · simp [hb]
  · have hb' : 0 < ob.borrowed_value_usd := Nat.pos_of_ne_zero hb
    rw [if_neg hb]
    have hval : ob.unhealthy_borrow_value_usd ≤ ob.borrowed_value_usd →
        u64cast (ob.unhealthy_borrow_value_usd * 10000 /
          ob.borrowed_value_usd) ≤ 10000 := by
      intro hle
      have h1 : ob.unhealthy_borrow_value_usd * 10000 /
          ob.borrowed_value_usd ≤ 10000 := by
        have h2 : ob.unhealthy_borrow_value_usd * 10000 ≤
            ob.borrowed_value_usd * 10000 := Nat.mul_le_mul_right 10000 hle
        have h3 := Nat.div_le_div_right (c := ob.borrowed_value_usd) h2
        have h4 : ob.borrowed_value_usd * 10000 / ob.borrowed_value_usd =
            10000 := Nat.mul_div_cancel_left 10000 hb'
        omega
      calc u64cast (ob.unhealthy_borrow_value_usd * 10000 /
          ob.borrowed_value_usd) ≤ ob.unhealthy_borrow_value_usd * 10000 /
            ob.borrowed_value_usd := Nat.mod_le _ _
        _ ≤ 10000 := h1
    refine ⟨?_, ?_, ?_⟩
    · simp [hb', not_lt]
    · intro _ hle
      simp [not_lt, hval hle]
    · simp [hb]

def c2ObFloor : Obligation :=
  { last_update_slot := 0, deposits := [], borrows := []
    deposited_value_usd := 0, borrowed_value_usd := 10001
    allowed_borrow_value_usd := 0, unhealthy_borrow_value_usd := 10002 }

def c2ObZero : Obligation :=
  { last_update_slot := 0, deposits := [], borrows := []
    deposited_value_usd := 0, borrowed_value_usd := 0
    allowed_borrow_value_usd := 0, unhealthy_borrow_value_usd := 0 }

/-- C2 counterexample: both directions of the claimed equivalence fail.
With debt 10001 and threshold value 10002 the health factor floors to
exactly 10000 so the position is liquidatable although
`borrowed ≥ unhealthy` is false; with both values 0 the right-hand side
holds but the position is not liquidatable. -/
theorem c2_counterexample :
    (c2ObFloor.is_liquidatable = true ∧
      ¬ c2ObFloor.unhealthy_borrow_value_usd ≤
          c2ObFloor.borrowed_value_usd) ∧
    (c2ObZero.unhealthy_borrow_value_usd ≤ c2ObZero.borrowed_value_usd ∧
      c2ObZero.is_liquidatable = false) := by decide

def c2ObWit : Obligation :=
  { last_update_slot := 0, deposits := [], borrows := []
    deposited_value_usd := 0, borrowed_value_usd := 100
    allowed_borrow_value_usd := 0, unhealthy_borrow_value_usd := 50 }

/-- C2 witness: the amended law applied to a concrete under-collateralized
obligation (debt 100, threshold value 50). -/
theorem c2_witness : c2ObWit.is_liquidatable = true :=
  (c2_health_factor_law c2ObWit).2.1 (by decide) (by decide)

/-! ## Claim C3 -/

/-- An obligation entry whose reserve (key 9) would have
`cumulative_supply_index = 2 * INDEX_ONE`, `ltv_bps = 5000`,
`liquidation_threshold_bps = 6000`, price `1 USD` and 6 decimals. -/
def c3Obligation : Obligation :=
  { last_update_slot := 0
    deposits := [⟨9, 1000, INDEX_ONE, 0⟩]
    borrows := []
    deposited_value_usd := 0, borrowed_value_usd := 0
    allowed_borrow_value_usd := 0, unhealthy_borrow_value_usd := 0 }

/-- C3: the code evaluated at the failing input.  `refresh_obligation`
writes `market_value_usd = 1000` (the stored amount at a hard-coded 1:1
price, ignoring the supply-index ratio) and accumulates the aggregates
with hard-coded 8000/8500 bps, whereas the claimed computation
`stored × current_index / snapshot × price / 10^decimals` with the
reserve's index `2·INDEX_ONE` yields 2000 (and the reserve's own
5000/6000 bps would give allowed 1000, not 800). -/
theorem c3_placeholder_divergence :
    ((refreshObligationUpdate c3Obligation 42).deposits.getD 0
      ocDefault).market_value_usd = 1000 ∧
    (refreshObligationUpdate c3Obligation 42).allowed_borrow_value_usd =
      800 ∧
    (refreshObligationUpdate c3Obligation 42).unhealthy_borrow_value_usd =
      850 ∧
    1000 * (2 * INDEX_ONE) / INDEX_ONE * 1000000 / 1000000 = 2000 ∧
    (1000 : Nat) ≠ 2000 := by decide

/-! ## Claim C5 -/

/-- C5 (amended): `deposit`, `withdraw`, `borrow` and `repay` all fail
with `ReserveStale` — leaving every account unchanged — whenever the
reserve's `last_update_slot` is more than
`MAX_RESERVE_STALENESS_SLOTS = 1500` slots old (for deposit/borrow, once
the preceding amount and account-constraint checks pass); `liquidate`
performs NO staleness check (see the counterexample). -/
theorem c5_stale_reserve_guard :
    (∀ (r : Reserve) (ob : Obligation) (key slot : Nat) (ts : Int)
        (amt : Nat), r.config.deposits_enabled = true → 1000 ≤ amt →
      r.is_stale slot MAX_RESERVE_STALENESS_SLOTS = true →
      depositHandler false r ob key slot ts amt =
        .error .ReserveStale) ∧
    (∀ (r : Reserve) (ob : Obligation) (va key slot : Nat) (ts : Int)
        (amt : Nat),
      r.is_stale slot MAX_RESERVE_STALENESS_SLOTS = true →
      withdrawHandler r ob va key slot ts amt = .error .ReserveStale) ∧
    (∀ (r : Reserve) (ob : Obligation) (va key slot : Nat) (ts : Int)
        (amt : Nat), r.config.borrows_enabled = true → 1000 ≤ amt →
      r.is_stale slot MAX_RESERVE_STALENESS_SLOTS = true →
      borrowHandler false r ob va key slot ts amt =
        .error .ReserveStale) ∧
    (∀ (r : Reserve) (ob : Obligation) (key slot : Nat) (ts : Int)
        (amt : Nat),
      r.is_stale slot MAX_RESERVE_STALENESS_SLOTS = true →
      repayHandler r ob key slot ts amt = .error .ReserveStale) := by
  refine ⟨?_, ?_, ?_, ?_⟩
  · intro r ob key slot ts amt hen hmin hstale
    have h0 : ¬ amt = 0 := by omega
    have h1 : ¬ amt < MIN_DEPOSIT_AMOUNT := by
      simp only [MIN_DEPOSIT_AMOUNT]
      omega
    simp [depositHandler, hen, h0, h1, hstale]
  · intro r ob va key slot ts amt hstale
    simp [withdrawHandler, hstale]
  · intro r ob va key slot ts amt hen hmin hstale
    have h0 : ¬ amt = 0 := by omega
    have h1 : ¬ amt < MIN_BORROW_AMOUNT := by
      simp only [MIN_BORROW_AMOUNT]
      omega
    simp [borrowHandler, hen, h0, h1, hstale]
  · intro r ob key slot ts amt hstale
    simp [repayHandler, hstale]

/-- `c1Reserve` refreshed last at slot 0: stale at slot 2000. -/
def c5StaleReserve : Reserve := { c1Reserve with last_update_slot := 0 }

/-- C5 counterexample: at slot 2000 both reserves are more than 1500
slots stale, yet this liquidation succeeds — `liquidate::handler` never
checks `Reserve::is_stale`. -/
theorem c5_counterexample :
    c5StaleReserve.is_stale 2000 MAX_RESERVE_STALENESS_SLOTS = true ∧
    exIsOk (liquidateHandler 5000 500 1000 c5StaleReserve c5StaleReserve
      c4wObligation 11 13 2000 9 500) = true := by decide

/-- C5 witness: the four staleness guards at a concrete stale reserve. -/
theorem c5_witness :
    depositHandler false c5StaleReserve obzero 7 2000 9 1000 =
      .error .ReserveStale ∧
    withdrawHandler c5StaleReserve obzero 0 7 2000 9 0 =
      .error .ReserveStale ∧
    borrowHandler false c5StaleReserve c1Obligation 0 7 2000 9 1000 =
      .error .ReserveStale ∧
    repayHandler c5StaleReserve obzero 7 2000 9 0 =
      .error .ReserveStale :=
  ⟨c5_stale_reserve_guard.1 c5StaleReserve obzero 7 2000 9 1000
      (by decide) (by decide) (by decide),
   c5_stale_reserve_guard.2.1 c5StaleReserve obzero 0 7 2000 9 0
      (by decide),
   c5_stale_reserve_guard.2.2.1 c5StaleReserve c1Obligation 0 7 2000 9
      1000 (by decide) (by decide) (by decide),
   c5_stale_reserve_guard.2.2.2 c5StaleReserve obzero 7 2000 9 0
      (by decide)⟩

/-! ## Claim C10 -/

theorem depositHandler_frame (em : Bool) (r : Reserve) (ob : Obligation)
    (key slot : Nat) (ts : Int) (amt : Nat) (p : Reserve × Obligation)
    (h : depositHandler em r ob key slot ts amt = .ok p) :
    p.1.liquidity.cumulative_borrow_index =
      r.liquidity.cumulative_borrow_index ∧
    p.1.liquidity.cumulative_supply_index =
      r.liquidity.cumulative_supply_index ∧
    p.1.last_update_slot = slot ∧
    p.1.last_update_timestamp = ts := by
  simp only [depositHandler] at h
  repeat' split at h
  all_goals try exact Except.noConfusion h
  all_goals (injection h with hp; subst hp; exact ⟨rfl, rfl, rfl, rfl⟩)

theorem withdrawHandler_frame (r : Reserve) (ob : Obligation)
    (va key slot : Nat) (ts : Int) (amt : Nat) (p : Reserve × Obligation)
    (h : withdrawHandler r ob va key slot ts amt = .ok p) :
    p.1.liquidity.cumulative_borrow_index =
      r.liquidity.cumulative_borrow_index ∧
    p.1.liquidity.cumulative_supply_index =
      r.liquidity.cumulative_supply_index ∧
    p.1.last_update_slot = slot ∧
    p.1.last_update_timestamp = ts := by
  simp only [withdrawHandler] at h
  repeat' split at h
  all_goals try exact Except.noConfusion h
  all_goals (injection h with hp; subst hp; exact ⟨rfl, rfl, rfl, rfl⟩)

theorem borrowFinish_frame (r : Reserve) (ob : Obligation)
    (key slot : Nat) (ts : Int) (amt : Nat) (p : Reserve × Obligation)
    (h : borrowFinish r ob key slot ts amt = .ok p) :
    p.1.liquidity.cumulative_borrow_index =
      r.liquidity.cumulative_borrow_index ∧
    p.1.liquidity.cumulative_supply_index =
      r.liquidity.cumulative_supply_index ∧
    p.1.last_update_slot = slot ∧
    p.1.last_update_timestamp = ts := by
  simp only [borrowFinish] at h
  repeat' split at h
  all_goals try exact Except.noConfusion h
  all_goals (injection h with hp; subst hp; exact ⟨rfl, rfl, rfl, rfl⟩)

theorem repayHandler_frame (r : Reserve) (ob : Obligation)
    (key slot : Nat) (ts : Int) (amt : Nat) (p : Reserve × Obligation)
    (h : repayHandler r ob key slot ts amt = .ok p) :
    p.1.liquidity.cumulative_borrow_index =
      r.liquidity.cumulative_borrow_index ∧
    p.1.liquidity.cumulative_supply_index =
      r.liquidity.cumulative_supply_index ∧
    p.1.last_update_slot = slot ∧
    p.1.last_update_timestamp = ts := by
  simp only [repayHandler] at h
  repeat' split at h
  all_goals try exact Except.noConfusion h
  all_goals (injection h with hp; subst hp; exact ⟨rfl, rfl, rfl, rfl⟩)

theorem liquidateHandler_frame (cf bb fb : Nat) (rr cr : Reserve)
    (ob : Obligation) (rk ck slot : Nat) (ts : Int) (req : Nat)
    (res : LiqResult)
    (h : liquidateHandler cf bb fb rr cr ob rk ck slot ts req = .ok res) :
    res.repay_reserve.liquidity.cumulative_borrow_index =
      rr.liquidity.cumulative_borrow_index ∧
    res.repay_reserve.liquidity.cumulative_supply_index =
      rr.liquidity.cumulative_supply_index ∧
    res.repay_reserve.last_update_slot = slot ∧
    res.repay_reserve.last_update_timestamp = ts ∧
    res.collateral_reserve.liquidity.cumulative_borrow_index =
      cr.liquidity.cumulative_borrow_index ∧
    res.collateral_reserve.liquidity.cumulative_supply_index =
      cr.liquidity.cumulative_supply_index ∧
    res.collateral_reserve.last_update_slot = slot ∧
    res.collateral_reserve.last_update_timestamp = ts := by
  simp only [liquidateHandler] at h
  repeat' split at h
  all_goals try exact Except.noConfusion h
  all_goals (
    obtain ⟨_, _, _, _, _, h6, h7, h8, h9, h10, h11, h12, h13⟩ :=
      liquidateCommit_spec _ _ _ _ _ _ _ _ _ _ _ _ _ h
    exact ⟨h6, h7, h8, h9, h10, h11, h12, h13⟩)

/-- C10: every successful `deposit`, `withdraw`, `borrow`, `repay` and
`liquidate` leaves the involved reserves' `cumulative_borrow_index` and
`cumulative_supply_index` exactly as they were while setting their
`last_update_slot`/`last_update_timestamp` to the current clock — so only
`refresh_reserve` ever advances the indexes, and the stamped clock erases
the elapsed time these operations never accrued. -/
theorem c10_frame_effects :
    (∀ (em : Bool) (r : Reserve) (ob : Obligation) (key slot : Nat)
        (ts : Int) (amt : Nat),
      exIsOk (depositHandler em r ob key slot ts amt) = true →
      ((depositStep em r ob key slot ts amt).1.liquidity.cumulative_borrow_index =
          r.liquidity.cumulative_borrow_index ∧
        (depositStep em r ob key slot ts amt).1.liquidity.cumulative_supply_index =
          r.liquidity.cumulative_supply_index ∧
        (depositStep em r ob key slot ts amt).1.last_update_slot = slot ∧
        (depositStep em r ob key slot ts amt).1.last_update_timestamp = ts)) ∧
    (∀ (r : Reserve) (ob : Obligation) (va key slot : Nat) (ts : Int)
        (amt : Nat),
      exIsOk (withdrawHandler r ob va key slot ts amt) = true →
      ((withdrawStep r ob va key slot ts amt).1.liquidity.cumulative_borrow_index =
          r.liquidity.cumulative_borrow_index ∧
        (withdrawStep r ob va key slot ts amt).1.liquidity.cumulative_supply_index =
          r.liquidity.cumulative_supply_index ∧
        (withdrawStep r ob va key slot ts amt).1.last_update_slot = slot ∧
        (withdrawStep r ob va key slot ts amt).1.last_update_timestamp = ts)) ∧
    (∀ (em : Bool) (r : Reserve) (ob : Obligation) (va key slot : Nat)
        (ts : Int) (amt : Nat),
      exIsOk (borrowHandler em r ob va key slot ts amt) = true →
      ((borrowStep em r ob va key slot ts amt).1.liquidity.cumulative_borrow_index =
          r.liquidity.cumulative_borrow_index ∧
        (borrowStep em r ob va key slot ts amt).1.liquidity.cumulative_supply_index =
          r.liquidity.cumulative_supply_index ∧
        (borrowStep em r ob va key slot ts amt).1.last_update_slot = slot ∧
        (borrowStep em r ob va key slot ts amt).1.last_update_timestamp = ts)) ∧
    (∀ (r : Reserve) (ob : Obligation) (key slot : Nat) (ts : Int)
        (amt : Nat),
      exIsOk (repayHandler r ob key slot ts amt) = true →
      ((repayStep r ob key slot ts amt).1.liquidity.cumulative_borrow_index =
          r.liquidity.cumulative_borrow_index ∧
        (repayStep r ob key slot ts amt).1.liquidity.cumulative_supply_index =
          r.liquidity.cumulative_supply_index ∧
        (repayStep r ob key slot ts amt).1.last_update_slot = slot ∧
        (repayStep r ob key slot ts amt).1.last_update_timestamp = ts)) ∧
    (∀ (cf bb fb : Nat) (rr cr : Reserve) (ob : Obligation)
        (rk ck slot : Nat) (ts : Int) (req : Nat),
      exIsOk (liquidateHandler cf bb fb rr cr ob rk ck slot ts req) =
        true →
      ((liquidateStep cf bb fb rr cr ob rk ck slot ts
          req).repay_reserve.liquidity.cumulative_borrow_index =
          rr.liquidity.cumulative_borrow_index ∧
        (liquidateStep cf bb fb rr cr ob rk ck slot ts
          req).repay_reserve.liquidity.cumulative_supply_index =
          rr.liquidity.cumulative_supply_index ∧
        (liquidateStep cf bb fb rr cr ob rk ck slot ts
          req).repay_reserve.last_update_slot = slot ∧
        (liquidateStep cf bb fb rr cr ob rk ck slot ts
          req).repay_reserve.last_update_timestamp = ts ∧
        (liquidateStep cf bb fb rr cr ob rk ck slot ts
          req).collateral_reserve.liquidity.cumulative_borrow_index =
          cr.liquidity.cumulative_borrow_index ∧
        (liquidateStep cf bb fb rr cr ob rk ck slot ts
          req).collateral_reserve.liquidity.cumulative_supply_index =
          cr.liquidity.cumulative_supply_index ∧
        (liquidateStep cf bb fb rr cr ob rk ck slot ts
          req).collateral_reserve.last_update_slot = slot ∧
        (liquidateStep cf bb fb rr cr ob rk ck slot ts
          req).collateral_reserve.last_update_timestamp = ts)) := by
  refine ⟨?_, ?_, ?_, ?_, ?_⟩
  · intro em r ob key slot ts amt hok
    rcases heq : depositHandler em r ob key slot ts amt with e | p
    · rw [heq] at hok
      exact absurd hok (by simp [exIsOk])
    · have hstep : depositStep em r ob key slot ts amt = p := by
        simp [depositStep, heq, exGetD]
      rw [hstep]
      exact depositHandler_frame em r ob key slot ts amt p heq
  · intro r ob va key slot ts amt hok
    rcases heq : withdrawHandler r ob va key slot ts amt with e | p
    · rw [heq] at hok
      exact absurd hok (by simp [exIsOk])
    · have hstep : withdrawStep r ob va key slot ts amt = p := by
        simp [withdrawStep, heq, exGetD]
      rw [hstep]
      exact withdrawHandler_frame r ob va key slot ts amt p heq
  · intro em r ob va key slot ts amt hok
    rcases heq : borrowHandler em r ob va key slot ts amt with e | p
    · rw [heq] at hok
      exact absurd hok (by simp [exIsOk])
    · have hstep : borrowStep em r ob va key slot ts amt = p := by
        simp [borrowStep, heq, exGetD]
      rw [hstep]
      exact borrowFinish_frame r ob key slot ts amt p
        (borrowHandler_ok em r ob va key slot ts amt p heq)
  · intro r ob key slot ts amt hok
    rcases heq : repayHandler r ob key slot ts amt with e | p
    · rw [heq] at hok
      exact absurd hok (by simp [exIsOk])
    · have hstep : repayStep r ob key slot ts amt = p := by
        simp [repayStep, heq, exGetD]
      rw [hstep]
      exact repayHandler_frame r ob key slot ts amt p heq
  · intro cf bb fb rr cr ob rk ck slot ts req hok
    rcases heq : liquidateHandler cf bb fb rr cr ob rk ck slot ts req with
      e | res
    · rw [heq] at hok
      exact absurd hok (by simp [exIsOk])
    · have hstep : liquidateStep cf bb fb rr cr ob rk ck slot ts req =
          res := by
        simp [liquidateStep, heq, exGetD]
      rw [hstep]
      exact liquidateHandler_frame cf bb fb rr cr ob rk ck slot ts req res
        heq

/-- A reserve with outstanding borrows so that a concrete repay
succeeds. -/
def c10RepayReserve : Reserve :=
  { c1Reserve with liquidity := { c1Reserve.liquidity with
      total_borrows := 1000 } }

/-- C10 witness: the frame theorem applied to one concrete successful run
of each of the five operations. -/
theorem c10_witness :
    (depositStep false c1Reserve obzero 7 100 100 1000).1.last_update_slot
        = 100 ∧
    (withdrawStep c1Reserve c1wWithdrawOb 1000000 7 100 100
        1000).1.last_update_slot = 100 ∧
    (borrowStep false c1Reserve c1wObligation 1000000 7 100 100
        1000).1.last_update_slot = 100 ∧
    (repayStep c10RepayReserve c1wWithdrawOb 5 100 100
        50).1.last_update_slot = 100 ∧
    (liquidateStep 5000 500 1000 c1Reserve c1Reserve c4wObligation 11 13 5
        0 500).repay_reserve.last_update_slot = 5 :=
  ⟨(c10_frame_effects.1 false c1Reserve obzero 7 100 100 1000
      (by decide)).2.2.1,
   (c10_frame_effects.2.1 c1Reserve c1wWithdrawOb 1000000 7 100 100 1000
      (by decide)).2.2.1,
   (c10_frame_effects.2.2.1 false c1Reserve c1wObligation 1000000 7 100
      100 1000 (by decide)).2.2.1,
   (c10_frame_effects.2.2.2.1 c10RepayReserve c1wWithdrawOb 5 100 100 50
      (by decide)).2.2.1,
   (c10_frame_effects.2.2.2.2 5000 500 1000 c1Reserve c1Reserve
      c4wObligation 11 13 5 0 500 (by decide)).2.2.1⟩

/-- C8 witness: the accrual upper bound at the same concrete refresh. -/
theorem c8_witness :
    (refreshStep c7Reserve 10 31536000).liquidity.cumulative_borrow_index *
        (10000 * SECONDS_PER_YEAR) ≤
      c7Reserve.liquidity.cumulative_borrow_index *
        (10000 * SECONDS_PER_YEAR +
          c7Reserve.liquidity.current_borrow_rate_bps *
            (min ((31536000 : Int) - c7Reserve.last_update_timestamp)
              (SECONDS_PER_YEAR : Int)).toNat) :=
  c8_accrual_upper_bound c7Reserve 10 31536000 (by decide)

end Radiant
